import Mathlib

/-!
# Movie discovery app: API gateway client, preference store and list views

A shallow embedding of `src/services/api.js` (class `ApiService`: request
signature, response cache with timer eviction, retry with linear backoff), of
`src/store/index.js` (class `Store`: the user collections, the ratings map,
`persistenceMiddleware` and `loadFromStorage`), of the list fetching of
`src/hooks/useMovies.ts`, `src/App-old.jsx` and `src/components/DashboardLayout.jsx`,
and of `src/services/tmdb.ts`, `src/utils/sitemap.js`, `src/components/MovieCard.tsx`,
`src/components/MovieModal.jsx` and `src/components/ErrorBoundary.jsx` as far as
the properties below need them.

Conventions of the embedding

* JavaScript strings are `String`; `String.prototype.includes` is `includes`.
* An `Error` is represented by its `message`, the only property the client reads.
* `fetch` is the environment: a call receives the outcomes of its successive
  fetches as a script `Nat → FetchOutcome` (index 0 is the next fetch).
* The event loop is explicit: `Runtime` holds the clock and the pending
  `setTimeout` callbacks registered by the client. A call is one step of the
  runtime; timer callbacks run in `Runtime.elapse`, between calls. The backoff a
  call waited is reported in its `delays`.
* Plain objects are key-value lists (`assocGet`, `assocSet`). Where the code
  compares arrays or objects with `!==`, the objects carry an identity
  (`UserRefs`) and a newly built array or object takes a fresh one.
* `JSON.stringify`, `JSON.parse` and `encodeURIComponent` are parameters.
* Measured durations are exact rationals; the local time zone is a parameter.
-/

namespace MovieApp

/-! ## Strings -/

/-- The method `String.prototype.includes`: `pat` occurs somewhere in `s`. -/
def includes (s pat : String) : Bool :=
  s.data.tails.any (fun t => pat.data.isPrefixOf t)

/-- The method `String.prototype.startsWith`. -/
def startsWith (s pre : String) : Bool :=
  pre.data.isPrefixOf s.data

/-! ## The response cache: a JavaScript `Map` from request signature to payload -/

/-- A parsed JSON payload; the client never looks inside it. -/
abbrev Json := String

/-- A `Map<string, Json>`: entries in insertion order. -/
structure Cache where
  entries : List (String × Json)
deriving DecidableEq, Repr

namespace Cache

/-- The call `new Map()`. -/
def empty : Cache := ⟨[]⟩

/-- The method `Map.prototype.has`. -/
def has (c : Cache) (key : String) : Bool :=
  c.entries.any (fun e => e.1 == key)

/-- The method `Map.prototype.get` (`none` is `undefined`). -/
def get (c : Cache) (key : String) : Option Json :=
  (c.entries.find? (fun e => e.1 == key)).map (fun e => e.2)

/-- The method `Map.prototype.set`: an existing key keeps its position and takes the new value, a new key goes last. -/
def set (c : Cache) (key : String) (value : Json) : Cache :=
  if c.has key then
    ⟨c.entries.map (fun e => if e.1 == key then (key, value) else e)⟩
  else
    ⟨c.entries ++ [(key, value)]⟩

/-- The method `Map.prototype.delete`. -/
def delete (c : Cache) (key : String) : Cache :=
  ⟨c.entries.filter (fun e => !(e.1 == key))⟩

/-- The method `Map.prototype.clear`. -/
def clear (_c : Cache) : Cache := ⟨[]⟩

/-- The property `Map.prototype.size`. -/
def size (c : Cache) : Nat := c.entries.length

/-- The expression `Array.from(map.keys())`. -/
def keys (c : Cache) : List String := c.entries.map (fun e => e.1)

end Cache

/-! ## The environment: `fetch` and the event loop -/

/-- What `response.json()` settles to. -/
inductive Body
  | json (data : Json)
  | unparsable (message : String)
deriving DecidableEq, Repr

/-- A `Response` as far as the client reads it. -/
structure Response where
  status : Nat
  statusText : String
  body : Body
deriving DecidableEq, Repr

/-- The property `Response.ok`: the status is in the range 200 to 299. -/
def Response.ok (r : Response) : Bool :=
  decide (200 ≤ r.status) && decide (r.status ≤ 299)

/-- How one `fetch(url, init)` promise settles. -/
inductive FetchOutcome
  | rejects (message : String)
  | resolves (response : Response)
deriving DecidableEq, Repr

/-- The `options` argument of `request`, represented by its `JSON.stringify` text, which is all the client derives from it. -/
structure Options where
  json : String
deriving DecidableEq, Repr

/-- The default `options = {}`. -/
def Options.default : Options := ⟨"\x7b\x7d"⟩

/-- The fields of `ApiService` that the methods read or write (`requestQueue` and `isProcessing` are never used). -/
structure ApiService where
  baseURL : String
  apiKey : String
  cache : Cache
deriving DecidableEq, Repr

/-- The field `this.retryAttempts`, set by the constructor and never reassigned. -/
def retryAttempts : Nat := 3

/-- The field `this.retryDelay` in milliseconds, set by the constructor and never reassigned. -/
def retryDelay : Nat := 1000

/-- The eviction delay `5 * 60 * 1000` milliseconds of line 44. -/
def cacheTTL : Nat := 5 * 60 * 1000

/-- The constructor `new ApiService(baseURL, apiKey)`. -/
def ApiService.new (baseURL apiKey : String) : ApiService :=
  { baseURL := baseURL, apiKey := apiKey, cache := Cache.empty }

/-- The client together with the clock (milliseconds) and the pending eviction callbacks `(due, cacheKey)` it registered with `setTimeout`. -/
structure Runtime where
  api : ApiService
  now : Nat
  timers : List (Nat × String)
deriving DecidableEq, Repr

namespace Runtime

/-- A fresh page: a new client, clock at 0, no pending timer. -/
def start (baseURL apiKey : String) : Runtime :=
  { api := ApiService.new baseURL apiKey, now := 0, timers := [] }

/-- Lines 43 and 44: `cache.set(cacheKey, data)` and `setTimeout(() => cache.delete(cacheKey), 5 * 60 * 1000)`. -/
def store (rt : Runtime) (cacheKey : String) (data : Json) : Runtime :=
  { rt with
    api := { rt.api with cache := rt.api.cache.set cacheKey data }
    timers := rt.timers ++ [(rt.now + cacheTTL, cacheKey)] }

/-- Time passes by `ms`: every pending callback that is due by then runs `cache.delete(cacheKey)` and is discarded. -/
def elapse (rt : Runtime) (ms : Nat) : Runtime :=
  { api := { rt.api with
      cache := (rt.timers.filter (fun t => decide (t.1 ≤ rt.now + ms))).foldl
        (fun c t => c.delete t.2) rt.api.cache }
    now := rt.now + ms
    timers := rt.timers.filter (fun t => !decide (t.1 ≤ rt.now + ms)) }

/-- The method `clearCache()`: `this.cache.clear()`; pending timers stay registered. -/
def clearCache (rt : Runtime) : Runtime :=
  { rt with api := { rt.api with cache := rt.api.cache.clear } }

end Runtime

/-- The result of `getCacheStats()`. -/
structure CacheStats where
  size : Nat
  keys : List String
deriving DecidableEq, Repr

/-- The method `getCacheStats()`. -/
def ApiService.getCacheStats (api : ApiService) : CacheStats :=
  { size := api.cache.size, keys := api.cache.keys }

/-! ## `requestWithRetry` -/

/-- How a call settles: the promise resolves with a payload or rejects with an error (its message). -/
inductive Result
  | resolved (data : Json)
  | rejected (message : String)
deriving DecidableEq, Repr

/-- A settled call: its result, the runtime it leaves, the number of `fetch` invocations it made and the backoff delays it awaited, in order. -/
structure Settled where
  result : Result
  runtime : Runtime
  fetches : Nat
  delays : List Nat
deriving DecidableEq, Repr

/-- How the `try` block of one attempt ends. -/
inductive TryOutcome
  | returned (data : Json)
  | retried
  | thrown (message : String)
deriving DecidableEq, Repr

/-- Lines 25 to 46, the `try` block of one attempt, given how its `fetch` settles. -/
def tryBlock (outcome : FetchOutcome) (attempt : Nat) : TryOutcome :=
  match outcome with
  | .rejects message => .thrown message
  | .resolves response =>
    if !response.ok then
      if response.status == 429 && decide (attempt ≤ retryAttempts) then .retried
      else .thrown ("HTTP " ++ toString response.status ++ ": " ++ response.statusText)
    else
      match response.body with
      | .unparsable message => .thrown message
      | .json data => .returned data

/-- Line 48, the condition of the `catch` block under which the error is retried. -/
def catchRetries (attempt : Nat) (message : String) : Bool :=
  decide (attempt ≤ retryAttempts) && !includes message "HTTP 4"

/-- The statement `await this.delay(ms); return this.requestWithRetry(..., attempt + 1)`: the recursive call's settlement, with this attempt's fetch and delay counted in front. -/
def afterDelay (ms : Nat) (next : Option Settled) : Option Settled :=
  next.map (fun s => { s with fetches := s.fetches + 1, delays := ms :: s.delays })

/-- The method `requestWithRetry(url, options, cacheKey, attempt)` with an explicit recursion budget; `none` only when the budget runs out. -/
def requestWithRetryFuel : Nat → Runtime → String → Options → String →
    (Nat → FetchOutcome) → Nat → Option Settled
  | 0, _, _, _, _, _, _ => none
  | fuel + 1, rt, url, options, cacheKey, upstream, attempt =>
    match tryBlock (upstream 0) attempt with
    | .returned data => some ⟨.resolved data, rt.store cacheKey data, 1, []⟩
    | .retried =>
      afterDelay (retryDelay * attempt)
        (requestWithRetryFuel fuel rt url options cacheKey (fun i => upstream (i + 1)) (attempt + 1))
    | .thrown message =>
      if catchRetries attempt message then
        afterDelay (retryDelay * attempt)
          (requestWithRetryFuel fuel rt url options cacheKey (fun i => upstream (i + 1)) (attempt + 1))
      else
        some ⟨.rejected message, rt, 1, []⟩

/-- The method `requestWithRetry(url, options, cacheKey, attempt)`: the budget covers every attempt the guards `attempt <= this.retryAttempts` allow. -/
def requestWithRetry (rt : Runtime) (url : String) (options : Options) (cacheKey : String)
    (upstream : Nat → FetchOutcome) (attempt : Nat) : Option Settled :=
  requestWithRetryFuel (retryAttempts + 1 - attempt + 1) rt url options cacheKey upstream attempt

/-! ## `request` and the endpoint methods -/

/-- Line 13: the resolved URL of an endpoint. -/
def requestUrl (api : ApiService) (endpoint : String) : String :=
  api.baseURL ++ endpoint ++ (if includes endpoint "?" then "&" else "?") ++ "api_key=" ++ api.apiKey

/-- Line 14: the request signature used as cache key. -/
def cacheKeyOf (api : ApiService) (endpoint : String) (options : Options) : String :=
  requestUrl api endpoint ++ "_" ++ options.json

/-- The method `request(endpoint, options = {})`: a cached signature is answered from the cache without a fetch, any other goes to `requestWithRetry`. -/
def request (rt : Runtime) (endpoint : String) (options : Options)
    (upstream : Nat → FetchOutcome) : Option Settled :=
  match rt.api.cache.get (cacheKeyOf rt.api endpoint options) with
  | some data => some ⟨.resolved data, rt, 0, []⟩
  | none =>
    requestWithRetry rt (requestUrl rt.api endpoint) options (cacheKeyOf rt.api endpoint options) upstream 1

/-- The optional `filters` of `getMovies`: a field is `none` when it is absent or falsy, otherwise `some` of the text its template literal renders. -/
structure Filters where
  genre : Option String
  year : Option String
  rating : Option String
  sortBy : Option String
deriving DecidableEq, Repr

/-- The default `filters = {}`. -/
def Filters.none : Filters := ⟨Option.none, Option.none, Option.none, Option.none⟩

/-- The statement `if (value) endpoint += name + value` of lines 64 to 67. -/
def addFilter (endpoint name : String) (value : Option String) : String :=
  match value with
  | some v => endpoint ++ name ++ v
  | Option.none => endpoint

/-- Lines 62 to 67: the endpoint of `getMovies(category, page, filters)`. -/
def moviesEndpoint (category : String) (page : Nat) (filters : Filters) : String :=
  addFilter (addFilter (addFilter (addFilter
    ("/movie/" ++ category ++ "?page=" ++ toString page)
    "&with_genres=" filters.genre) "&year=" filters.year)
    "&vote_average.gte=" filters.rating) "&sort_by=" filters.sortBy

/-- The method `getMovies(category, page, filters)`. -/
def getMovies (rt : Runtime) (category : String) (page : Nat) (filters : Filters)
    (upstream : Nat → FetchOutcome) : Option Settled :=
  request rt (moviesEndpoint category page filters) Options.default upstream

/-- The endpoint of `getMovieDetails(movieId)`, line 77. -/
def movieDetailsEndpoint (movieId : Nat) : String :=
  "/movie/" ++ toString movieId ++ "?append_to_response=videos,credits,reviews,similar"

/-- The method `getMovieDetails(movieId)`. -/
def getMovieDetails (rt : Runtime) (movieId : Nat) (upstream : Nat → FetchOutcome) :
    Option Settled :=
  request rt (movieDetailsEndpoint movieId) Options.default upstream

/-! ## Histories of one client -/

/-- One thing that happens to the client: a call of `request` with the script of its fetches, a call of `clearCache`, or time passing. -/
inductive Event
  | request (endpoint : String) (options : Options) (upstream : Nat → FetchOutcome)
  | clearCache
  | elapse (ms : Nat)

/-- The runtime after one event. -/
def step (rt : Runtime) : Event → Runtime
  | .request endpoint options upstream =>
    match request rt endpoint options upstream with
    | some s => s.runtime
    | none => rt
  | .clearCache => rt.clearCache
  | .elapse ms => rt.elapse ms

/-- The runtime after a history of events, oldest first. -/
def run (rt : Runtime) : List Event → Runtime
  | [] => rt
  | e :: es => run (step rt e) es

/-- The event is a call whose successful fetch stores a payload under `cacheKey`. -/
def reinserts (cacheKey : String) (rt : Runtime) : Event → Bool
  | .request endpoint options upstream =>
    match request rt endpoint options upstream with
    | some s =>
      decide (1 ≤ s.fetches) &&
        (match s.result with
          | .resolved _ => true
          | .rejected _ => false) &&
        (cacheKeyOf rt.api endpoint options == cacheKey)
    | none => false
  | .clearCache => false
  | .elapse _ => false

/-- No event of the history, run from `rt`, stores a payload under `cacheKey`. -/
def noReinsertion (cacheKey : String) : Runtime → List Event → Bool
  | _, [] => true
  | rt, e :: es => !reinserts cacheKey rt e && noReinsertion cacheKey (step rt e) es

/-! ## The preference store (`src/store/index.js`) -/

/-- A movie record: its identifier and its other properties as (name, JSON text) pairs. -/
structure Movie where
  id : Int
  props : List (String × String)
deriving DecidableEq, Repr

/-- The slice `state.user`. -/
structure UserState where
  favorites : List Movie
  watchlist : List Movie
  watched : List Movie
  ratings : List (Int × Int)
  theme : String
deriving DecidableEq, Repr

/-- The slice `state.filters`. -/
structure FilterState where
  category : String
  genre : String
  year : String
  rating : Nat
  sortBy : String
deriving DecidableEq, Repr

/-- The slice `state.ui`. -/
structure UiState where
  selectedMovie : Option Movie
  showSidebar : Bool
  activeView : String
  viewMode : String
deriving DecidableEq, Repr

/-- The slice `state.analytics`. -/
structure AnalyticsState where
  apiCalls : Nat
  avgResponseTime : Nat
  cacheHits : Nat
deriving DecidableEq, Repr

/-- The object `Store.state`. -/
structure StoreState where
  movies : List Movie
  loading : Bool
  error : Option String
  isSearching : Bool
  searchQuery : String
  totalPages : Nat
  currentPage : Nat
  filters : FilterState
  user : UserState
  ui : UiState
  analytics : AnalyticsState
deriving DecidableEq, Repr

namespace Store

/-- The method `toggleFavorite(movie)`: the state that `setState({ user: { ...user, favorites: updatedFavorites } })` installs. -/
def toggleFavorite (st : StoreState) (movie : Movie) : StoreState :=
  let favorites := st.user.favorites
  let isFavorite := favorites.any (fun fav => fav.id == movie.id)
  let updatedFavorites :=
    if isFavorite then favorites.filter (fun fav => fav.id != movie.id)
    else favorites ++ [movie]
  { st with user := { st.user with favorites := updatedFavorites } }

end Store

/-! ### Plain objects as key-value lists -/

/-- The property read `object[key]` (`none` is `undefined`). -/
def assocGet {κ ν : Type} [BEq κ] (object : List (κ × ν)) (key : κ) : Option ν :=
  (object.find? (fun p => p.1 == key)).map (fun p => p.2)

/-- The object spread `{ ...object, [key]: value }`: an existing property takes the new value, a new one is added. -/
def assocSet {κ ν : Type} [BEq κ] (object : List (κ × ν)) (key : κ) (value : ν) :
    List (κ × ν) :=
  if object.any (fun p => p.1 == key) then
    object.map (fun p => if p.1 == key then (key, value) else p)
  else
    object ++ [(key, value)]

namespace Movie

/-- The property read `movie[name]` for a property other than `id`. -/
def getProp (m : Movie) (name : String) : Option String := assocGet m.props name

/-- The object spread `{ ...movie, [name]: value }` for a property other than `id`. -/
def withProp (m : Movie) (name value : String) : Movie :=
  { m with props := assocSet m.props name value }

end Movie

namespace Store

/-- The method `addToWatchlist(movie)`: the state after the call. -/
def addToWatchlist (st : StoreState) (movie : Movie) : StoreState :=
  let watchlist := st.user.watchlist
  let isInWatchlist := watchlist.any (fun item => item.id == movie.id)
  if !isInWatchlist then
    { st with user := { st.user with watchlist := watchlist ++ [movie] } }
  else st

/-- The method `markAsWatched(movie)`: the state after the call, where `now` is the text of `new Date().toISOString()`. -/
def markAsWatched (st : StoreState) (movie : Movie) (now : String) : StoreState :=
  let watched := st.user.watched
  let isWatched := watched.any (fun item => item.id == movie.id)
  if !isWatched then
    { st with user := { st.user with watched := watched ++ [movie.withProp "watchedAt" now] } }
  else st

/-- The method `rateMovie(movieId, rating)`: the state after the call. -/
def rateMovie (st : StoreState) (movieId rating : Int) : StoreState :=
  { st with user := { st.user with ratings := assocSet st.user.ratings movieId rating } }

end Store

/-- The number of entries of a collection whose `id` is `id`. -/
def countId (collection : List Movie) (id : Int) : Nat :=
  collection.countP (fun m => m.id == id)

/-- The ids of a collection are pairwise distinct. -/
def distinctIds (collection : List Movie) : Prop :=
  (collection.map (fun m => m.id)).Nodup

/-- Favourites, watchlist and watched each hold pairwise distinct ids. -/
def collectionsDistinct (user : UserState) : Prop :=
  distinctIds user.favorites ∧ distinctIds user.watchlist ∧ distinctIds user.watched

/-! ## Persistence (`persistenceMiddleware`, `loadFromStorage`) -/

/-- The page: the entries of `localStorage` and the `data-theme` attribute of the document element. -/
structure Browser where
  localStorage : List (String × String)
  dataTheme : Option String
deriving DecidableEq, Repr

/-- The method `localStorage.getItem(key)` (`none` is `null`). -/
def getItem (localStorage : List (String × String)) (key : String) : Option String :=
  assocGet localStorage key

/-- The method `localStorage.setItem(key, value)`. -/
def setItem (localStorage : List (String × String)) (key value : String) :
    List (String × String) :=
  assocSet localStorage key value

/-- The page after one `localStorage.setItem(key, value)`. -/
def Browser.write (browser : Browser) (key value : String) : Browser :=
  { browser with localStorage := setItem browser.localStorage key value }

/-- The identities of the four objects held in `state.user`: two arrays or objects are the same under `!==` exactly when they are the same allocation. -/
structure UserRefs where
  favorites : Nat
  watchlist : Nat
  watched : Nat
  ratings : Nat
deriving DecidableEq, Repr

/-- A state object: its value and the identities of the collections of its `user`. -/
structure Snapshot where
  state : StoreState
  refs : UserRefs
deriving DecidableEq, Repr

/-- The function `JSON.stringify` on the two shapes the middleware serialises. -/
structure Stringify where
  movies : List Movie → String
  ratings : List (Int × Int) → String

/-- The function `persistenceMiddleware(prevState, newState)`, lines 198 to 215: the page after it ran. -/
def persistenceMiddleware (json : Stringify) (prevState newState : Snapshot)
    (browser : Browser) : Browser :=
  let b1 : Browser :=
    if prevState.refs.favorites != newState.refs.favorites then
      browser.write "movieflix-favorites" (json.movies newState.state.user.favorites)
    else browser
  let b2 : Browser :=
    if prevState.refs.watchlist != newState.refs.watchlist then
      b1.write "movieflix-watchlist" (json.movies newState.state.user.watchlist)
    else b1
  let b3 : Browser :=
    if prevState.refs.watched != newState.refs.watched then
      b2.write "movieflix-watched" (json.movies newState.state.user.watched)
    else b2
  let b4 : Browser :=
    if prevState.refs.ratings != newState.refs.ratings then
      b3.write "movieflix-ratings" (json.ratings newState.state.user.ratings)
    else b3
  if prevState.state.user.theme != newState.state.user.theme then
    { localStorage := setItem b4.localStorage "movieflix-theme" newState.state.user.theme
      dataTheme := some newState.state.user.theme }
  else b4

/-- The `Store` instance: `this.state` with the identities of its collections, the next unused identity, and whether `persistenceMiddleware` is in `this.middleware`. -/
structure StoreObject where
  current : Snapshot
  nextRef : Nat
  persistence : Bool
deriving DecidableEq, Repr

namespace StoreObject

/-- Every collection of the current state was allocated before `nextRef`. -/
def wellFormed (store : StoreObject) : Prop :=
  store.current.refs.favorites < store.nextRef ∧ store.current.refs.watchlist < store.nextRef ∧
    store.current.refs.watched < store.nextRef ∧ store.current.refs.ratings < store.nextRef

/-- The method `addMiddleware(persistenceMiddleware)` of line 218. -/
def addMiddleware (store : StoreObject) : StoreObject :=
  { store with persistence := true }

/-- The call `setState({ user })`, lines 58 to 64, for a `user` object whose collections have the identities `refs`: the new state is installed and the middleware runs on the old and the new state. -/
def setStateUser (json : Stringify) (store : StoreObject) (browser : Browser) (user : UserState)
    (refs : UserRefs) (nextRef : Nat) : StoreObject × Browser :=
  let newState : Snapshot := ⟨{ store.current.state with user := user }, refs⟩
  ({ store with current := newState, nextRef := nextRef },
    if store.persistence then persistenceMiddleware json store.current newState browser
    else browser)

/-- The method `toggleFavorite(movie)` on the instance: the array built by `filter` or by the spread is a new allocation. -/
def toggleFavorite (json : Stringify) (store : StoreObject) (browser : Browser)
    (movie : Movie) : StoreObject × Browser :=
  setStateUser json store browser (Store.toggleFavorite store.current.state movie).user
    { store.current.refs with favorites := store.nextRef } (store.nextRef + 1)

/-- The method `addToWatchlist(movie)` on the instance: `setState` is called only when the id is absent. -/
def addToWatchlist (json : Stringify) (store : StoreObject) (browser : Browser)
    (movie : Movie) : StoreObject × Browser :=
  if !store.current.state.user.watchlist.any (fun item => item.id == movie.id) then
    setStateUser json store browser (Store.addToWatchlist store.current.state movie).user
      { store.current.refs with watchlist := store.nextRef } (store.nextRef + 1)
  else (store, browser)

/-- The method `markAsWatched(movie)` on the instance: `setState` is called only when the id is absent. -/
def markAsWatched (json : Stringify) (store : StoreObject) (browser : Browser)
    (movie : Movie) (now : String) : StoreObject × Browser :=
  if !store.current.state.user.watched.any (fun item => item.id == movie.id) then
    setStateUser json store browser (Store.markAsWatched store.current.state movie now).user
      { store.current.refs with watched := store.nextRef } (store.nextRef + 1)
  else (store, browser)

/-- The method `rateMovie(movieId, rating)` on the instance: the ratings object is always a new allocation. -/
def rateMovie (json : Stringify) (store : StoreObject) (browser : Browser)
    (movieId rating : Int) : StoreObject × Browser :=
  setStateUser json store browser (Store.rateMovie store.current.state movieId rating).user
    { store.current.refs with ratings := store.nextRef } (store.nextRef + 1)

/-- The theme switch of `DashboardLayout.jsx` line 326 and `Settings.jsx` line 23: `store.setState({ user: { ...state.user, theme } })`, which keeps every collection. -/
def setTheme (json : Stringify) (store : StoreObject) (browser : Browser)
    (theme : String) : StoreObject × Browser :=
  setStateUser json store browser { store.current.state.user with theme := theme }
    store.current.refs store.nextRef

end StoreObject

/-- The method `loadFromStorage(key, defaultValue)`, lines 187 to 195, where `parse` is `JSON.parse` for the shape of the value and yields `none` where `JSON.parse` throws. -/
def loadFromStorage {α : Type} (parse : String → Option α) (window : Bool)
    (localStorage : List (String × String)) (key : String) (defaultValue : α) : α :=
  if !window then defaultValue
  else
    match getItem localStorage ("movieflix-" ++ key) with
    | some item =>
      if item != "" then
        match parse item with
        | some value => value
        | none => defaultValue
      else defaultValue
    | none => defaultValue

/-- Line 23 of the constructor: `theme: this.loadFromStorage('theme', 'dark')`. -/
def loadTheme (parse : String → Option String) (window : Bool)
    (localStorage : List (String × String)) : String :=
  loadFromStorage parse window localStorage "theme" "dark"

/-- The function `JSON.parse` on the text of a plain string literal: a text in double quotes whose inside has no quote, backslash or control character parses to the inside; no other text yields a string here, and a text that does not start with a quote, like `light`, makes `JSON.parse` throw. -/
def parseJsonString (text : String) : Option String :=
  match text.data with
  | [] => none
  | first :: rest =>
    match rest.reverse with
    | [] => none
    | last :: inner =>
      if first == Char.ofNat 34 && last == Char.ofNat 34 &&
          inner.all (fun c => c != Char.ofNat 34 && c != Char.ofNat 92 && decide (32 ≤ c.val.toNat))
      then some (String.mk inner.reverse)
      else none

/-! ## The movie lists of the views (`useMovies.ts`, `App-old.jsx`, `DashboardLayout.jsx`) -/

/-- A list response of the upstream API. -/
structure TMDBResponse where
  page : Nat
  results : List Movie
  total_pages : Nat
  total_results : Nat
deriving DecidableEq, Repr

/-- How a promise for a list response settles: with the response or with an error (its message). -/
inductive Fetched
  | rejected (message : String)
  | resolved (response : TMDBResponse)
deriving DecidableEq, Repr

/-- The length of a JavaScript string in UTF-16 code units. -/
def jsLength (s : String) : Nat :=
  (s.data.map (fun c => if 65536 ≤ c.val.toNat then 2 else 1)).sum

/-- The text starts or ends with a whitespace character. -/
def edgeWhitespace (s : String) : Bool :=
  (match s.data.head? with
    | some c => c.isWhitespace
    | none => false) ||
  (match s.data.getLast? with
    | some c => c.isWhitespace
    | none => false)

/-- A call of one of the list methods of `tmdbService`. -/
inductive ServiceCall
  | searchMovies (query : String) (page : Nat)
  | getPopularMovies (page : Nat)
  | getTopRatedMovies (page : Nat)
  | getNowPlaying (page : Nat)
deriving DecidableEq, Repr

namespace useMovies

/-- The state of the hook `useMovies`. -/
structure State where
  movies : List Movie
  loading : Bool
  error : Option String
  page : Nat
  hasMore : Bool
  searchTerm : String
  category : String
deriving DecidableEq, Repr

/-- Lines 25 to 38 of `fetchMovies`: the service method that is called. -/
def serviceCall (query : String) (pageNum : Nat) (movieCategory : String) : ServiceCall :=
  if query != "" then .searchMovies query pageNum
  else if movieCategory == "popular" then .getPopularMovies pageNum
  else if movieCategory == "top_rated" then .getTopRatedMovies pageNum
  else .getNowPlaying pageNum

/-- The function `fetchMovies(query, pageNum, append, movieCategory)`: the hook state once the call has settled, where `service` tells how each service call settles. -/
def fetchMovies (service : ServiceCall → Fetched) (h : State) (query : String) (pageNum : Nat)
    (append : Bool) (movieCategory : String) : State :=
  match service (serviceCall query pageNum movieCategory) with
  | .resolved response =>
    { h with
      error := none
      movies := if append then h.movies ++ response.results else response.results
      hasMore := decide (pageNum < response.total_pages)
      loading := false }
  | .rejected message => { h with error := some message, loading := false }

end useMovies

namespace AppOld

/-- The filter state of `App-old.jsx`; `minRating` is `none` when it is not above 0 and otherwise the text it renders. -/
structure Filters where
  selectedGenre : String
  minRating : Option String
  yearRange : Nat × Nat
  sortBy : String
deriving DecidableEq, Repr

/-- The part of the component state that `fetchMovies` writes. -/
structure State where
  movies : List Movie
  loading : Bool
  error : Option String
  hasMore : Bool
  toast : Option (String × String)
deriving DecidableEq, Repr

/-- What `response.json()` settles to. -/
inductive Parsed
  | rejected (message : String)
  | data (response : TMDBResponse)
deriving DecidableEq, Repr

/-- How `fetch(endpoint)` settles. -/
inductive FetchResult
  | rejects (message : String)
  | resolves (ok : Bool) (json : Parsed)
deriving DecidableEq, Repr

/-- The lookup `categoryMap[movieCategory]` inside a template literal. -/
def categoryMap (movieCategory : String) : String :=
  if movieCategory == "now_playing" || movieCategory == "popular" ||
      movieCategory == "top_rated" || movieCategory == "upcoming" then movieCategory
  else "undefined"

/-- Lines 220 to 239: the URL that `fetchMovies` fetches. -/
def endpoint (apiKey : String) (encodeURIComponent : String → String) (f : Filters)
    (searchQuery : String) (pageNum : Nat) (movieCategory : String) : String :=
  if searchQuery != "" then
    "https://api.themoviedb.org/3/search/movie?api_key=" ++ apiKey ++ "&query=" ++
      encodeURIComponent searchQuery ++ "&page=" ++ toString pageNum
  else
    let e0 := "https://api.themoviedb.org/3/movie/" ++ categoryMap movieCategory ++
      "?api_key=" ++ apiKey ++ "&page=" ++ toString pageNum
    let e1 := if f.selectedGenre != "" then e0 ++ "&with_genres=" ++ f.selectedGenre else e0
    let e2 :=
      match f.minRating with
      | some r => e1 ++ "&vote_average.gte=" ++ r
      | none => e1
    let e3 :=
      if f.yearRange.1 != 1990 || f.yearRange.2 != 2024 then
        e2 ++ "&primary_release_date.gte=" ++ toString f.yearRange.1 ++
          "-01-01&primary_release_date.lte=" ++ toString f.yearRange.2 ++ "-12-31"
      else e2
    e3 ++ "&sort_by=" ++ f.sortBy

/-- The label `searchQuery ? 'search' : movieCategory` passed to `measureApiCall`. -/
def label (searchQuery movieCategory : String) : String :=
  if searchQuery != "" then "search" else movieCategory

/-- The function `fetchMovies(searchQuery, pageNum, append, movieCategory)`: the state once the call has settled, where `fetch` tells how the request for a URL settles. -/
def fetchMovies (apiKey : String) (encodeURIComponent : String → String)
    (fetch : String → FetchResult) (f : Filters) (st : State) (searchQuery : String)
    (pageNum : Nat) (append : Bool) (movieCategory : String) : State :=
  let failed := fun (message : String) =>
    { st with
      error := some message
      toast := some ("Failed to load movies", "error")
      loading := false }
  match fetch (endpoint apiKey encodeURIComponent f searchQuery pageNum movieCategory) with
  | .rejects message => failed message
  | .resolves ok json =>
    if !ok then failed "Failed to fetch movies"
    else
      match json with
      | .rejected message => failed message
      | .data response =>
        { st with
          error := none
          movies := if append then st.movies ++ response.results else response.results
          hasMore := decide (pageNum < response.total_pages)
          loading := false }

end AppOld

namespace DashboardLayout

/-- A call of the API client made by the search box. -/
inductive ApiCall
  | searchMovies (query : String)
  | getMovies (category : String) (page : Nat) (filters : FilterState)
deriving DecidableEq, Repr

/-- The callback wrapped by `debounce` in lines 44 to 77: the API call it makes for the text of the search box, if any. -/
def debouncedSearch (filters : FilterState) (query : String) : Option ApiCall :=
  if jsLength query > 2 then some (.searchMovies query)
  else if jsLength query == 0 then some (.getMovies filters.category 1 filters)
  else none

end DashboardLayout

/-! ## Diagnostics and the comparison list of `App-old.jsx` -/

namespace AppOld

/-- The state `apiMetrics`, with the average taken as an exact rational. -/
structure ApiMetrics where
  calls : Nat
  avgTime : ℚ
deriving DecidableEq

/-- The initial `apiMetrics`, line 36. -/
def ApiMetrics.initial : ApiMetrics := ⟨0, 0⟩

/-- How the promise `apiCall()` settles: with a result, after the measured `performance.now() - start`, or with an error. -/
inductive Measured (α : Type)
  | resolves (result : α) (duration : ℚ)
  | rejects (error : String)

/-- What `measureApiCall` settles to. -/
inductive MeasureOutcome (α : Type)
  | returned (result : α)
  | thrown (error : String)

/-- The function `measureApiCall(apiCall, endpoint)`, lines 165 to 178: the metrics after the call and what the call settles to. -/
def measureApiCall {α : Type} (metrics : ApiMetrics) (apiCall : Measured α) :
    ApiMetrics × MeasureOutcome α :=
  match apiCall with
  | .resolves result duration =>
    (⟨metrics.calls + 1,
        (metrics.avgTime * (metrics.calls : ℚ) + duration) / ((metrics.calls : ℚ) + 1)⟩,
      .returned result)
  | .rejects error => (metrics, .thrown error)

/-- The metrics after a sequence of `measureApiCall` calls, oldest first. -/
def measureAll {α : Type} (metrics : ApiMetrics) : List (Measured α) → ApiMetrics
  | [] => metrics
  | c :: cs => measureAll (measureApiCall metrics c).1 cs

/-- The measured durations of the calls that resolved, in order. -/
def durations {α : Type} : List (Measured α) → List ℚ
  | [] => []
  | .resolves _ d :: cs => d :: durations cs
  | .rejects _ :: cs => durations cs

/-- The states `compareMovies` and `toast`. -/
structure CompareState where
  compareMovies : List Movie
  toast : Option (String × String)
deriving DecidableEq, Repr

/-- The function `toggleCompare(movie)`, lines 143 to 152. -/
def toggleCompare (st : CompareState) (movie : Movie) : CompareState :=
  if (st.compareMovies.find? (fun m => m.id == movie.id)).isSome then
    { st with compareMovies := st.compareMovies.filter (fun m => m.id != movie.id) }
  else if st.compareMovies.length < 3 then
    { compareMovies := st.compareMovies ++ [movie]
      toast := some ("Added to comparison (" ++ toString (st.compareMovies.length + 1) ++ "/3)",
        "info") }
  else
    { st with toast := some ("Maximum 3 movies for comparison", "error") }

/-- The state after a sequence of `toggleCompare` calls, oldest first. -/
def toggleCompareAll (st : CompareState) : List Movie → CompareState
  | [] => st
  | m :: ms => toggleCompareAll (toggleCompare st m) ms

end AppOld

/-! ## Image URLs -/

/-- The test `!path` on a path that may be `null`: true for `null` and for the empty string. -/
def falsyPath (path : Option String) : Bool :=
  match path with
  | none => true
  | some p => p == ""

/-- The text of a path inside a template literal. -/
def pathText (path : Option String) : String :=
  match path with
  | none => "null"
  | some p => p

/-- The method `ApiService.getOptimizedImageUrl(path, isMobile)`, lines 99 to 103. -/
def getOptimizedImageUrl (path : Option String) (isMobile : Bool) : String :=
  if falsyPath path then "/placeholder.jpg"
  else
    let size := if isMobile then "w300" else "w500"
    "https://image.tmdb.org/t/p/" ++ size ++ pathText path

/-- The method `TMDBService.getImageUrl(path, size)`, lines 31 to 33 of `tmdb.ts`. -/
def getImageUrl (path : Option String) (size : String) : String :=
  if !falsyPath path then "https://image.tmdb.org/t/p/" ++ size ++ pathText path
  else "/placeholder.jpg"

/-- The default `size = 'w500'` of `getImageUrl`. -/
def defaultImageSize : String := "w500"

/-! ## The buttons of `MovieModal.jsx` -/

namespace MovieModal

/-- The `onClick` of the button labelled `Add to Watchlist`, lines 89 to 92: `store.markAsWatched(movieDetails); store.addToWatchlist(movieDetails)`. -/
def addToWatchlistClick (st : StoreState) (movieDetails : Movie) (now : String) : StoreState :=
  Store.addToWatchlist (Store.markAsWatched st movieDetails now) movieDetails

/-- The `onClick` of the button labelled `Mark as Watched`, line 98. -/
def markAsWatchedClick (st : StoreState) (movieDetails : Movie) (now : String) : StoreState :=
  Store.markAsWatched st movieDetails now

end MovieModal

/-! ## `ErrorBoundary.jsx` -/

namespace ErrorBoundary

/-- The `errorInfo` object React passes to `componentDidCatch`. -/
structure ErrorInfo where
  componentStack : String
deriving DecidableEq, Repr

/-- The component state; `none` is `null`. -/
structure State where
  hasError : Bool
  error : Option String
  errorInfo : Option ErrorInfo
deriving DecidableEq, Repr

/-- The state set by the constructor, line 6. -/
def initial : State := ⟨false, none, none⟩

/-- The state after React merged the result `{ hasError: true }` of `getDerivedStateFromError(error)`. -/
def getDerivedStateFromError (st : State) : State :=
  { st with hasError := true }

/-- The state after `componentDidCatch(error, errorInfo)`: `setState({ error, errorInfo })`. -/
def componentDidCatch (st : State) (error : String) (errorInfo : ErrorInfo) : State :=
  { st with error := some error, errorInfo := some errorInfo }

/-- The state after the `Try Again` button, line 45. -/
def tryAgain (_st : State) : State := ⟨false, none, none⟩

/-- What `render()` does: it returns the fallback markup with its two texts, returns the children, or throws a `TypeError`. -/
inductive Rendered
  | fallback (errorText : String) (componentStack : String)
  | children
  | typeError (message : String)
deriving DecidableEq, Repr

/-- The method `render()`, lines 25 to 57: in the fallback, `this.state.error && this.state.error.toString()` is guarded and `this.state.errorInfo.componentStack` is not. -/
def render (st : State) : Rendered :=
  if st.hasError then
    let errorText :=
      match st.error with
      | some e => e
      | none => ""
    match st.errorInfo with
    | some info => .fallback errorText info.componentStack
    | none => .typeError "Cannot read properties of null (reading componentStack)"
  else .children

end ErrorBoundary

/-! ## `SitemapGenerator.getMoviePages` (`src/utils/sitemap.js`) -/

namespace Sitemap

/-- The method `Array.prototype.findIndex`, counting from `start`; `none` is the result -1. -/
def findIndexFrom (p : Movie → Bool) : Nat → List Movie → Option Nat
  | _, [] => none
  | i, m :: ms => if p m then some i else findIndexFrom p (i + 1) ms

/-- The method `Array.prototype.filter` with a callback that also takes the index, counting from `start`. -/
def filterWithIndexFrom (p : Movie → Nat → Bool) : Nat → List Movie → List Movie
  | _, [] => []
  | i, m :: ms =>
    if p m i then m :: filterWithIndexFrom p (i + 1) ms
    else filterWithIndexFrom p (i + 1) ms

/-- Lines 42 to 44: `allMovies.filter((movie, index, self) => index === self.findIndex(m => m.id === movie.id))`. -/
def uniqueMovies (allMovies : List Movie) : List Movie :=
  filterWithIndexFrom
    (fun movie index => findIndexFrom (fun m => m.id == movie.id) 0 allMovies == some index)
    0 allMovies

/-- An entry of the sitemap. -/
structure Page where
  url : String
  priority : String
  changefreq : String
  lastmod : String
deriving DecidableEq, Repr

/-- The method `getMoviePages()`, given how the two `getMovies` calls settle and the text `today` of `new Date().toISOString().split('T')[0]`. -/
def getMoviePages (popularMovies topRatedMovies : Fetched) (today : String) : List Page :=
  match popularMovies with
  | .rejected _ => []
  | .resolved popular =>
    match topRatedMovies with
    | .rejected _ => []
    | .resolved topRated =>
      (uniqueMovies (popular.results ++ topRated.results)).map
        (fun movie => ⟨"/movie/" ++ toString movie.id, "0.6", "monthly", today⟩)

/-- In the claim's words: one movie per distinct id, in the order of first occurrence; `seen` holds the ids met so far. -/
def firstOccurrences : List Int → List Movie → List Movie
  | _, [] => []
  | seen, m :: ms =>
    if seen.contains m.id then firstOccurrences seen ms
    else m :: firstOccurrences (seen ++ [m.id]) ms

end Sitemap

/-! ## `MovieCard.tsx`: the release year -/

namespace MovieCard

/-- A calendar date written as a date-only ISO form `YYYY-MM-DD`. -/
structure IsoDate where
  year : Nat
  month : Nat
  day : Nat
deriving DecidableEq, Repr

/-- The value of a decimal digit. -/
def digitValue (c : Char) : Option Nat :=
  if c.isDigit then some (c.toNat - 48) else none

/-- The number of days of a month. -/
def daysInMonth (year month : Nat) : Nat :=
  if month = 2 then
    if (year % 4 = 0 ∧ year % 100 ≠ 0) ∨ year % 400 = 0 then 29 else 28
  else if month = 4 ∨ month = 6 ∨ month = 9 ∨ month = 11 then 30
  else 31

/-- The date of a text of the form `YYYY-MM-DD` that names a calendar date. -/
def parseIsoDate (text : String) : Option IsoDate :=
  match text.data with
  | [y1, y2, y3, y4, s1, m1, m2, s2, d1, d2] =>
    match digitValue y1, digitValue y2, digitValue y3, digitValue y4,
      digitValue m1, digitValue m2, digitValue d1, digitValue d2 with
    | some a, some b, some c, some d, some e, some f, some g, some h =>
      let year := 1000 * a + 100 * b + 10 * c + d
      let month := 10 * e + f
      let day := 10 * g + h
      if s1 == Char.ofNat 45 && s2 == Char.ofNat 45 && decide (1 ≤ month) && decide (month ≤ 12) &&
          decide (1 ≤ day) && decide (day ≤ daysInMonth year month) then
        some ⟨year, month, day⟩
      else none
    | _, _, _, _, _, _, _, _ => none
  | _ => none

/-- Modelled from the ECMAScript specification of `Date`: `new Date(text).getFullYear()` for a date-only ISO form and a local time zone `offsetMinutes` east of UTC, within a day. The text denotes midnight UTC of that date and `getFullYear` reads the year in local time, so west of UTC the local date is the day before; `none` outside this fragment. -/
def localFullYear (text : String) (offsetMinutes : Int) : Option Int :=
  if -1440 < offsetMinutes ∧ offsetMinutes < 1440 then
    (parseIsoDate text).map
      (fun d => if offsetMinutes < 0 ∧ d.month = 1 ∧ d.day = 1 then (d.year : Int) - 1
        else (d.year : Int))
  else none

/-- Line 35: `movie.release_date ? new Date(movie.release_date).getFullYear() : 'TBA'`, as the text the card shows; `none` when the date is outside the fragment of `localFullYear`. -/
def releaseYearText (release_date : Option String) (offsetMinutes : Int) : Option String :=
  match release_date with
  | none => some "TBA"
  | some text =>
    if text == "" then some "TBA"
    else (localFullYear text offsetMinutes).map (fun year => toString year)

end MovieCard

/-! ## The URLs of the two API clients -/

/-- The number of occurrences of a character in a text. -/
def countChar (s : String) (c : Char) : Nat := s.data.count c

/-- A filter value, when present, has no question mark. -/
def optNoQuestion (value : Option String) : Prop :=
  match value with
  | some v => countChar v '?' = 0
  | none => True

/-- What a filter field contributes to the endpoint: `name` and the value when the field is present and truthy, nothing otherwise. -/
def filterText (name : String) (value : Option String) : String :=
  match value with
  | some v => name ++ v
  | none => ""

/-- The `filters` argument that a caller passing `state.filters` hands to `getMovies`: the empty string and 0 are falsy. -/
def Filters.ofState (f : FilterState) : Filters :=
  { genre := if f.genre != "" then some f.genre else Option.none
    year := if f.year != "" then some f.year else Option.none
    rating := if f.rating != 0 then some (toString f.rating) else Option.none
    sortBy := if f.sortBy != "" then some f.sortBy else Option.none }

/-- The endpoint of `ApiService.searchMovies(query, page)`, line 73. -/
def searchMoviesEndpoint (encodeURIComponent : String → String) (query : String)
    (page : Nat) : String :=
  "/search/movie?query=" ++ encodeURIComponent query ++ "&page=" ++ toString page

/-- The endpoint of `ApiService.getGenres()`, line 81. -/
def genresEndpoint : String := "/genre/movie/list"

/-- The endpoint of `ApiService.getTrending(timeWindow)`, line 85. -/
def trendingEndpoint (timeWindow : String) : String := "/trending/movie/" ++ timeWindow

namespace TMDBService

/-- The constant `BASE_URL` of `tmdb.ts`. -/
def BASE_URL : String := "https://api.themoviedb.org/3"

/-- Line 8 of `fetchData(endpoint)`: the URL that is fetched. -/
def url (apiKey endpoint : String) : String :=
  BASE_URL ++ endpoint ++ "?api_key=" ++ apiKey

/-- The endpoint of `getNowPlaying(page)`, line 16. -/
def nowPlayingEndpoint (page : Nat) : String := "/movie/now_playing&page=" ++ toString page

/-- The endpoint of `searchMovies(query, page)`, line 20. -/
def searchMoviesEndpoint (encodeURIComponent : String → String) (query : String)
    (page : Nat) : String :=
  "/search/movie&query=" ++ encodeURIComponent query ++ "&page=" ++ toString page

/-- The endpoint of `getPopularMovies(page)`, line 24. -/
def popularEndpoint (page : Nat) : String := "/movie/popular&page=" ++ toString page

/-- The endpoint of `getTopRatedMovies(page)`, line 28. -/
def topRatedEndpoint (page : Nat) : String := "/movie/top_rated&page=" ++ toString page

end TMDBService

/-- The text before the first occurrence of `c`, and the text after it when there is one. -/
def breakAt (c : Char) : List Char → List Char × Option (List Char)
  | [] => ([], none)
  | x :: xs =>
    if x == c then ([], some xs)
    else ((x :: (breakAt c xs).1), (breakAt c xs).2)

/-- The pieces of a text between the occurrences of `c`. -/
def splitAt (c : Char) : List Char → List (List Char)
  | [] => [[]]
  | x :: xs =>
    if x == c then [] :: splitAt c xs
    else
      match splitAt c xs with
      | [] => [[x]]
      | piece :: pieces => (x :: piece) :: pieces

/-- The part of a URL before its first question mark: scheme, host and path. -/
def urlPath (url : String) : String := String.mk (breakAt '?' url.data).1

/-- The query parameters of a URL: the text after the first question mark, cut at each `&`, each piece cut at its first `=`. -/
def urlQuery (url : String) : List (String × String) :=
  match (breakAt '?' url.data).2 with
  | none => []
  | some query =>
    (splitAt '&' query).map
      (fun piece =>
        (String.mk (breakAt '=' piece).1,
          match (breakAt '=' piece).2 with
          | some value => String.mk value
          | none => ""))

/-- A stand-in for `encodeURIComponent` in the worked examples: it escapes the question mark and keeps every other character. -/
def escapeQuestion : List Char → List Char
  | [] => []
  | c :: cs => (if c == '?' then ['%', '3', 'F'] else [c]) ++ escapeQuestion cs

/-! ## Overlapping calls of `request` -/

/-- Two calls of `request` with the same endpoint and options, the second issued while the first still awaits its response: both run lines 13 to 18 on the cache as it is before either stores; the first settles first, and the second, when it resolves after fetching, stores into the runtime the first left. -/
def requestOverlapping (rt : Runtime) (endpoint : String) (options : Options)
    (upstream1 upstream2 : Nat → FetchOutcome) : Option (Settled × Settled) :=
  match request rt endpoint options upstream1 with
  | none => none
  | some s1 =>
    match request rt endpoint options upstream2 with
    | none => none
    | some s2 =>
      some (s1,
        { s2 with
          runtime :=
            match s2.result with
            | .resolved data =>
              if s2.fetches = 0 then s1.runtime
              else s1.runtime.store (cacheKeyOf rt.api endpoint options) data
            | .rejected _ => s1.runtime })

/-! ## Inputs used in the worked examples -/

/-- A fresh client for the upstream base URL of line 106. -/
def rt0 : Runtime := Runtime.start "https://api.themoviedb.org/3" "KEY"

/-- An upstream that answers every fetch with the same response. -/
def always (r : Response) : Nat → FetchOutcome := fun _ => .resolves r

/-- An upstream whose first `k` fetches settle as `first` and every later one as `later`. -/
def firstThen (k : Nat) (first later : FetchOutcome) : Nat → FetchOutcome :=
  fun i => if i < k then first else later

/-- A `200 OK` response carrying `data`. -/
def ok200 (data : Json) : Response := ⟨200, "OK", .json data⟩

/-- A store state with the given favourites and the constructor defaults elsewhere. -/
def storeWith (favorites : List Movie) : StoreState :=
  { movies := [], loading := false, error := none, isSearching := false, searchQuery := "",
    totalPages := 1, currentPage := 1,
    filters := ⟨"popular", "", "", 0, "popularity.desc"⟩,
    user := ⟨favorites, [], [], [], "dark"⟩,
    ui := ⟨none, true, "dashboard", "grid"⟩,
    analytics := ⟨0, 0, 0⟩ }

/-- The history after which a stale eviction timer removes a fresh entry: fetch the genre list, clear the cache 100 s later, fetch the list again at 200 s, and let the clock reach 350 s. -/
def staleTimerHistory : List Event :=
  [ .request "/genre/movie/list" Options.default (always (ok200 "first")),
    .elapse 100000,
    .clearCache,
    .elapse 100000,
    .request "/genre/movie/list" Options.default (always (ok200 "second")),
    .elapse 150000 ]

/-- A stand-in for `JSON.stringify` in the worked examples: the ids of the movies, and the id and rating pairs. -/
def sampleStringify : Stringify :=
  { movies := fun ms => toString (ms.map (fun m => m.id))
    ratings := fun rs => toString rs }

/-- A store instance on the state `storeWith favorites` with the middleware installed. -/
def storeObjectWith (favorites : List Movie) : StoreObject :=
  { current := ⟨storeWith favorites, ⟨0, 1, 2, 3⟩⟩, nextRef := 4, persistence := true }

/-- An empty page. -/
def emptyBrowser : Browser := ⟨[], none⟩

/-- The initial state of the hook `useMovies`. -/
def hookStart : useMovies.State :=
  { movies := [], loading := true, error := none, page := 1, hasMore := true,
    searchTerm := "", category := "now_playing" }

/-- The initial state of `App-old.jsx` as far as `fetchMovies` writes it. -/
def appStart : AppOld.State :=
  { movies := [], loading := true, error := none, hasMore := true, toast := none }

/-- The initial filters of `App-old.jsx`. -/
def appFilters : AppOld.Filters := ⟨"", none, (1990, 2024), "popularity.desc"⟩

/-! ## Predicates used in the proofs -/

/-- The attempt ends in `await this.delay(...)` and a recursive call. -/
def retriesAt (outcome : FetchOutcome) (attempt : Nat) : Prop :=
  tryBlock outcome attempt = .retried ∨
    ∃ m, tryBlock outcome attempt = .thrown m ∧ catchRetries attempt m = true

/-- A settled call with `k` earlier attempts, starting at `attempt`, counted in front of it. -/
def prepend (k attempt : Nat) (s : Settled) : Settled :=
  { s with
    fetches := s.fetches + k
    delays := (List.range k).map (fun i => retryDelay * (attempt + i)) ++ s.delays }

/-- While `key` is cached, a pending eviction timer for `key` falls due after now and no later than `bound`. -/
def evictionPending (key : String) (bound : Nat) (rt : Runtime) : Prop :=
  rt.api.cache.has key = true →
    ∃ due, (due, key) ∈ rt.timers ∧ rt.now < due ∧ due ≤ bound

/-! ## Shared lemmas -/

theorem includes_append_left (pat rest : String) : includes (pat ++ rest) pat = true := by
  unfold includes
  rw [List.any_eq_true]
  refine ⟨(pat ++ rest).data, ?_, ?_⟩
  · simp [List.mem_tails]
  · simp [String.data_append, List.isPrefixOf_iff_prefix]

theorem toString_of_4xx (s : Nat) (h1 : 400 ≤ s) (h2 : s ≤ 499) :
    ∃ r : String, toString s = "4" ++ r := by
  refine ⟨String.mk (toString s).data.tail, ?_⟩
  interval_cases s <;> decide

theorem http_4xx_message (s : Nat) (h1 : 400 ≤ s) (h2 : s ≤ 499) (statusText : String) :
    includes ("HTTP " ++ toString s ++ ": " ++ statusText) "HTTP 4" = true := by
  obtain ⟨r, hr⟩ := toString_of_4xx s h1 h2
  have e : "HTTP " ++ toString s ++ ": " ++ statusText
      = "HTTP 4" ++ (r ++ ": " ++ statusText) := by
    have h4 : ("HTTP " ++ "4" : String) = "HTTP 4" := by decide
    rw [hr]
    simp only [String.append_assoc]
    rw [← String.append_assoc "HTTP " "4", h4]
  rw [e]
  exact includes_append_left _ _

theorem tryBlock_4xx (s : Nat) (h1 : 400 ≤ s) (h2 : s ≤ 499) (h3 : s ≠ 429)
    (statusText : String) (body : Body) (attempt : Nat) :
    tryBlock (.resolves ⟨s, statusText, body⟩) attempt
      = .thrown ("HTTP " ++ toString s ++ ": " ++ statusText) := by
  have hok : Response.ok ⟨s, statusText, body⟩ = false := by
    simp [Response.ok]; omega
  simp [tryBlock, hok, h3]

theorem tryBlock_429 (statusText : String) (body : Body) (attempt : Nat) :
    tryBlock (.resolves ⟨429, statusText, body⟩) attempt
      = if attempt ≤ retryAttempts then .retried
        else .thrown ("HTTP 429: " ++ statusText) := by
  have hok : Response.ok ⟨429, statusText, body⟩ = false := by
    simp [Response.ok]
  have h429 : toString (429 : Nat) = "429" := by decide
  have hcat : "HTTP " ++ "429" = ("HTTP 429" : String) := by decide
  by_cases h : attempt ≤ retryAttempts
  · simp [tryBlock, hok, h]
  · simp [tryBlock, hok, h, h429, hcat]

theorem tryBlock_ok_json (s : Nat) (h1 : 200 ≤ s) (h2 : s ≤ 299) (statusText : String)
    (data : Json) (attempt : Nat) :
    tryBlock (.resolves ⟨s, statusText, .json data⟩) attempt = .returned data := by
  have hok : Response.ok ⟨s, statusText, .json data⟩ = true := by
    simp [Response.ok, h1, h2]
  simp [tryBlock, hok]

theorem tryBlock_ok_unparsable (s : Nat) (h1 : 200 ≤ s) (h2 : s ≤ 299) (statusText : String)
    (message : String) (attempt : Nat) :
    tryBlock (.resolves ⟨s, statusText, .unparsable message⟩) attempt = .thrown message := by
  have hok : Response.ok ⟨s, statusText, .unparsable message⟩ = true := by
    simp [Response.ok, h1, h2]
  simp [tryBlock, hok]

/-- With the budget `requestWithRetry` passes, the recursion settles: at least one fetch, at most one per attempt the guards allow, and the delay before the retry that follows attempt `a` is `retryDelay * a`. -/
theorem requestWithRetryFuel_settles (fuel : Nat) :
    ∀ (rt : Runtime) (url : String) (options : Options) (cacheKey : String)
      (upstream : Nat → FetchOutcome) (attempt : Nat),
      retryAttempts + 1 - attempt < fuel →
      ∃ s, requestWithRetryFuel fuel rt url options cacheKey upstream attempt = some s ∧
        1 ≤ s.fetches ∧ s.fetches ≤ retryAttempts + 1 - attempt + 1 ∧
        s.delays = (List.range (s.fetches - 1)).map (fun k => retryDelay * (attempt + k)) := by
  induction fuel with
  | zero => intro _ _ _ _ _ _ h; omega
  | succ fuel ih =>
    intro rt url options cacheKey upstream attempt hfuel
    have again : attempt ≤ retryAttempts →
        ∃ s, afterDelay (retryDelay * attempt)
            (requestWithRetryFuel fuel rt url options cacheKey (fun i => upstream (i + 1))
              (attempt + 1)) = some s ∧
          1 ≤ s.fetches ∧ s.fetches ≤ retryAttempts + 1 - attempt + 1 ∧
          s.delays = (List.range (s.fetches - 1)).map (fun k => retryDelay * (attempt + k)) := by
      intro hle
      obtain ⟨s, hs, h1, h2, h3⟩ :=
        ih rt url options cacheKey (fun i => upstream (i + 1)) (attempt + 1) (by omega)
      refine ⟨{ s with fetches := s.fetches + 1, delays := retryDelay * attempt :: s.delays },
        by simp [afterDelay, hs], by simp, by simp; omega, ?_⟩
      obtain ⟨n, hn⟩ : ∃ n, s.fetches = n + 1 := ⟨s.fetches - 1, by omega⟩
      simp only [hn, Nat.add_sub_cancel] at h3 ⊢
      rw [h3, List.range_succ_eq_map]
      simp [List.map_map, Function.comp_def, Nat.add_assoc, Nat.add_comm 1]
    rw [requestWithRetryFuel]
    cases htry : tryBlock (upstream 0) attempt with
    | returned data => exact ⟨_, rfl, by simp, by simp, by simp⟩
    | retried =>
      have hle : attempt ≤ retryAttempts := by
        by_contra hgt
        cases hup : upstream 0 with
        | rejects m => simp [tryBlock, hup] at htry
        | resolves r =>
          simp only [tryBlock, hup] at htry
          split at htry
          · simp [hgt] at htry
          · split at htry <;> simp at htry
      exact again hle
    | thrown message =>
      by_cases hc : catchRetries attempt message = true
      · simp only [hc, if_true]
        exact again (by simp [catchRetries] at hc; exact hc.1)
      · simp only [hc]
        exact ⟨_, rfl, by simp, by simp, by simp⟩

/-- The runtime a settled call leaves: untouched when it rejects, and the stored payload of this signature when it resolves. -/
theorem requestWithRetryFuel_runtime (fuel : Nat) :
    ∀ (rt : Runtime) (url : String) (options : Options) (cacheKey : String)
      (upstream : Nat → FetchOutcome) (attempt : Nat) (s : Settled),
      requestWithRetryFuel fuel rt url options cacheKey upstream attempt = some s →
      (∃ m, s.result = .rejected m ∧ s.runtime = rt) ∨
      (∃ d, s.result = .resolved d ∧ s.runtime = rt.store cacheKey d) := by
  induction fuel with
  | zero => intro _ _ _ _ _ _ s h; simp [requestWithRetryFuel] at h
  | succ fuel ih =>
    intro rt url options cacheKey upstream attempt s hs
    have again : afterDelay (retryDelay * attempt)
          (requestWithRetryFuel fuel rt url options cacheKey (fun i => upstream (i + 1))
            (attempt + 1)) = some s →
        (∃ m, s.result = .rejected m ∧ s.runtime = rt) ∨
        (∃ d, s.result = .resolved d ∧ s.runtime = rt.store cacheKey d) := by
      intro h
      cases hrec : requestWithRetryFuel fuel rt url options cacheKey
          (fun i => upstream (i + 1)) (attempt + 1) with
      | none => simp [afterDelay, hrec] at h
      | some s0 =>
        simp only [afterDelay, hrec, Option.map_some', Option.some.injEq] at h
        subst h
        exact ih rt url options cacheKey _ _ s0 hrec
    rw [requestWithRetryFuel] at hs
    cases htry : tryBlock (upstream 0) attempt with
    | returned data =>
      simp only [htry, Option.some.injEq] at hs
      subst hs
      exact Or.inr ⟨data, rfl, rfl⟩
    | retried =>
      simp only [htry] at hs
      exact again hs
    | thrown message =>
      simp only [htry] at hs
      by_cases hc : catchRetries attempt message = true
      · simp only [hc, if_true] at hs
        exact again hs
      · simp only [hc] at hs
        simp only [Bool.false_eq_true, if_false, Option.some.injEq] at hs
        subst hs
        exact Or.inl ⟨message, rfl, rfl⟩

/-! ## One attempt of the retry recursion -/

theorem requestWithRetry_one (rt : Runtime) (url : String) (options : Options)
    (cacheKey : String) (upstream : Nat → FetchOutcome) :
    requestWithRetry rt url options cacheKey upstream 1
      = requestWithRetryFuel (3 + 1) rt url options cacheKey upstream 1 := rfl

theorem fuel_step_retry (fuel : Nat) (rt : Runtime) (url : String) (options : Options)
    (cacheKey : String) (upstream : Nat → FetchOutcome) (attempt : Nat)
    (h : retriesAt (upstream 0) attempt) :
    requestWithRetryFuel (fuel + 1) rt url options cacheKey upstream attempt
      = afterDelay (retryDelay * attempt)
          (requestWithRetryFuel fuel rt url options cacheKey (fun i => upstream (i + 1))
            (attempt + 1)) := by
  rw [requestWithRetryFuel]
  rcases h with h | ⟨m, h, hc⟩
  · simp only [h]
  · simp only [h, hc, if_true]

theorem fuel_step_returned (fuel : Nat) (rt : Runtime) (url : String) (options : Options)
    (cacheKey : String) (upstream : Nat → FetchOutcome) (attempt : Nat) (data : Json)
    (h : tryBlock (upstream 0) attempt = .returned data) :
    requestWithRetryFuel (fuel + 1) rt url options cacheKey upstream attempt
      = some ⟨.resolved data, rt.store cacheKey data, 1, []⟩ := by
  rw [requestWithRetryFuel]
  simp only [h]

theorem fuel_step_thrown (fuel : Nat) (rt : Runtime) (url : String) (options : Options)
    (cacheKey : String) (upstream : Nat → FetchOutcome) (attempt : Nat) (m : String)
    (h : tryBlock (upstream 0) attempt = .thrown m) (hc : catchRetries attempt m = false) :
    requestWithRetryFuel (fuel + 1) rt url options cacheKey upstream attempt
      = some ⟨.rejected m, rt, 1, []⟩ := by
  rw [requestWithRetryFuel]
  simp only [h, hc, Bool.false_eq_true, if_false]

/-- After `k` attempts that each end in a retry, the call continues as the recursive call at attempt `attempt + k` on the rest of the script, with `k` fetches and the delays `retryDelay * attempt, ...` in front. -/
theorem retry_chain (k : Nat) :
    ∀ (fuel : Nat) (rt : Runtime) (url : String) (options : Options) (cacheKey : String)
      (upstream : Nat → FetchOutcome) (attempt : Nat),
      (∀ i, i < k → retriesAt (upstream i) (attempt + i)) →
      requestWithRetryFuel (fuel + k) rt url options cacheKey upstream attempt
        = (requestWithRetryFuel fuel rt url options cacheKey (fun i => upstream (i + k))
            (attempt + k)).map (prepend k attempt) := by
  induction k with
  | zero =>
    intro fuel rt url options cacheKey upstream attempt _
    have hp : prepend 0 attempt = id := by
      funext s
      simp [prepend]
    simp [hp]
  | succ k ih =>
    intro fuel rt url options cacheKey upstream attempt h
    have h0 : retriesAt (upstream 0) attempt := by simpa using h 0 (by omega)
    have hrest : ∀ i, i < k → retriesAt ((fun j => upstream (j + 1)) i) (attempt + 1 + i) := by
      intro i hi
      have := h (i + 1) (by omega)
      simpa [Nat.add_assoc, Nat.add_comm 1 i] using this
    have e1 : fuel + (k + 1) = (fuel + k) + 1 := by omega
    rw [e1, fuel_step_retry _ _ _ _ _ _ _ h0,
      ih fuel rt url options cacheKey (fun j => upstream (j + 1)) (attempt + 1) hrest]
    have e2 : attempt + 1 + k = attempt + (k + 1) := by omega
    have e3 : (fun i => (fun j => upstream (j + 1)) (i + k)) = fun i => upstream (i + (k + 1)) := by
      funext i
      simp [Nat.add_assoc]
    rw [e2, e3]
    cases requestWithRetryFuel fuel rt url options cacheKey (fun i => upstream (i + (k + 1)))
        (attempt + (k + 1)) with
    | none => simp [afterDelay]
    | some s =>
      simp only [afterDelay, Option.map_some', Option.some.injEq, prepend]
      rw [List.range_succ_eq_map]
      simp [List.map_map, Function.comp_def, Nat.add_assoc, Nat.add_comm 1]

theorem retriesAt_429 (statusText : String) (body : Body) (attempt : Nat)
    (h : attempt ≤ retryAttempts) :
    retriesAt (.resolves ⟨429, statusText, body⟩) attempt := by
  left
  rw [tryBlock_429]
  simp [h]

theorem retriesAt_rejects (m : String) (attempt : Nat) (h : attempt ≤ retryAttempts)
    (hm : includes m "HTTP 4" = false) :
    retriesAt (.rejects m) attempt := by
  right
  exact ⟨m, rfl, by simp [catchRetries, h, hm]⟩

theorem retriesAt_unparsable (s : Nat) (h1 : 200 ≤ s) (h2 : s ≤ 299) (statusText m : String)
    (attempt : Nat) (h : attempt ≤ retryAttempts) (hm : includes m "HTTP 4" = false) :
    retriesAt (.resolves ⟨s, statusText, .unparsable m⟩) attempt := by
  right
  exact ⟨m, tryBlock_ok_unparsable s h1 h2 statusText m attempt, by simp [catchRetries, h, hm]⟩

theorem catchRetries_exhausted (m : String) : catchRetries 4 m = false := by
  simp [catchRetries, retryAttempts]

/-! ## The claims -/

/-- C3: a first fetch answered with a status `s` in 400..499 other than 429 is not retried: `requestWithRetry` settles after exactly one fetch and no backoff, rejecting with the message `HTTP s: statusText`, which carries the status code; in particular an uncached `getMovieDetails(999999)` answered 404 rejects with `HTTP 404: ...` after one fetch. -/
theorem C3_client_error_not_retried (rt : Runtime) (url : String) (options : Options)
    (cacheKey : String) (upstream : Nat → FetchOutcome) (s : Nat) (statusText : String)
    (body : Body) (h400 : 400 ≤ s) (h499 : s ≤ 499) (h429 : s ≠ 429)
    (hfirst : upstream 0 = .resolves ⟨s, statusText, body⟩) :
    requestWithRetry rt url options cacheKey upstream 1
        = some ⟨.rejected ("HTTP " ++ toString s ++ ": " ++ statusText), rt, 1, []⟩ ∧
      (s = 404 →
        rt.api.cache.get (cacheKeyOf rt.api (movieDetailsEndpoint 999999) Options.default) = none →
        getMovieDetails rt 999999 upstream
          = some ⟨.rejected ("HTTP 404: " ++ statusText), rt, 1, []⟩) := by
  have key : ∀ (u : String) (o : Options) (k : String), requestWithRetry rt u o k upstream 1
      = some ⟨.rejected ("HTTP " ++ toString s ++ ": " ++ statusText), rt, 1, []⟩ := by
    intro u o k
    rw [requestWithRetry_one]
    apply fuel_step_thrown
    · rw [hfirst]
      exact tryBlock_4xx s h400 h499 h429 statusText body 1
    · simp [catchRetries, http_4xx_message s h400 h499 statusText]
  refine ⟨key url options cacheKey, ?_⟩
  intro h404 hmiss
  have e : ("HTTP " ++ toString (404 : Nat) ++ ": " : String) = "HTTP 404: " := by decide
  subst h404
  simp only [getMovieDetails, request, hmiss]
  rw [key, e]

/-- C3 at a concrete input: status 404 `Not Found` on the first fetch of a fresh client. -/
theorem C3_client_error_not_retried_witness :
    (400 ≤ 404 ∧ 404 ≤ 499 ∧ 404 ≠ 429) ∧
      requestWithRetry rt0 "u" Options.default "k" (always ⟨404, "Not Found", .json "x"⟩) 1
        = some ⟨.rejected ("HTTP " ++ toString 404 ++ ": " ++ "Not Found"), rt0, 1, []⟩ :=
  ⟨by decide,
    (C3_client_error_not_retried rt0 "u" Options.default "k"
      (always ⟨404, "Not Found", .json "x"⟩) 404 "Not Found" (.json "x")
      (by decide) (by decide) (by decide) rfl).1⟩

/-- C4: when the signature is not cached and the upstream answers 429, 429 and then 200 with a JSON payload, `getMovies(category, page, filters)` resolves with that payload after exactly three fetches, having waited `retryDelay * 1` and `retryDelay * 2`, that is 1000 ms and 2000 ms, before the third. -/
theorem C4_rate_limit_recovery (rt : Runtime) (category : String) (page : Nat)
    (filters : Filters) (upstream : Nat → FetchOutcome) (t1 t2 t3 : String) (b1 b2 : Body)
    (data : Json)
    (hmiss : rt.api.cache.get
      (cacheKeyOf rt.api (moviesEndpoint category page filters) Options.default) = none)
    (h0 : upstream 0 = .resolves ⟨429, t1, b1⟩)
    (h1 : upstream 1 = .resolves ⟨429, t2, b2⟩)
    (h2 : upstream 2 = .resolves ⟨200, t3, .json data⟩) :
    ∃ s, getMovies rt category page filters upstream = some s ∧
      s.result = .resolved data ∧ s.fetches = 3 ∧
      s.delays = [retryDelay * 1, retryDelay * 2] ∧ s.delays = [1000, 2000] ∧
      s.delays.sum = 1000 + 2000 := by
  have hchain : ∀ i, i < 2 → retriesAt (upstream i) (1 + i) := by
    intro i hi
    interval_cases i
    · rw [h0]; exact retriesAt_429 t1 b1 _ (by decide)
    · rw [h1]; exact retriesAt_429 t2 b2 _ (by decide)
  have hlast : tryBlock ((fun i => upstream (i + 2)) 0) (1 + 2) = .returned data := by
    simp only [Nat.zero_add, h2]
    exact tryBlock_ok_json 200 (by decide) (by decide) t3 data _
  simp only [getMovies, request, hmiss]
  rw [requestWithRetry_one]
  have e : (3 + 1 : Nat) = (1 + 1) + 2 := by decide
  rw [e, retry_chain 2 (1 + 1) rt _ _ _ upstream 1 hchain,
    fuel_step_returned 1 rt _ _ _ _ _ data hlast]
  exact ⟨_, rfl, rfl, rfl, by simp [prepend, List.range_succ, retryDelay],
    by simp [prepend, List.range_succ, retryDelay],
    by simp [prepend, List.range_succ, retryDelay]⟩

/-- C4 at a concrete input: `getMovies('popular', 1, {})` on a fresh client, answered 429, 429, 200. -/
theorem C4_rate_limit_recovery_witness :
    (rt0.api.cache.get (cacheKeyOf rt0.api (moviesEndpoint "popular" 1 Filters.none)
        Options.default) = none ∧
      firstThen 2 (.resolves ⟨429, "Too Many Requests", .unparsable ""⟩)
        (.resolves ⟨200, "OK", .json "page"⟩) 2 = .resolves ⟨200, "OK", .json "page"⟩) ∧
    ∃ s, getMovies rt0 "popular" 1 Filters.none
        (firstThen 2 (.resolves ⟨429, "Too Many Requests", .unparsable ""⟩)
          (.resolves ⟨200, "OK", .json "page"⟩)) = some s ∧
      s.result = .resolved "page" ∧ s.fetches = 3 ∧
      s.delays = [retryDelay * 1, retryDelay * 2] ∧ s.delays = [1000, 2000] ∧
      s.delays.sum = 1000 + 2000 :=
  ⟨by decide,
    C4_rate_limit_recovery rt0 "popular" 1 Filters.none _ "Too Many Requests"
      "Too Many Requests" "OK" (.unparsable "") (.unparsable "") "page" (by decide) rfl rfl rfl⟩

/-- C5: one call of `requestWithRetry` settles with exactly one result after at least one and at most `retryAttempts + 1 = 4` fetches (at most 3 retries), whatever the upstream answers; the delay before the k-th retry is `retryDelay * k`, so the delays are an initial part of 1000, 2000, 3000 and non-decreasing; and an upstream that always answers 429 yields the error `HTTP 429: ...` after 4 fetches and the delays 1000, 2000, 3000. -/
theorem C5_bounded_retry (rt : Runtime) (url : String) (options : Options) (cacheKey : String)
    (upstream : Nat → FetchOutcome) :
    (∃! s, requestWithRetry rt url options cacheKey upstream 1 = some s ∧
      1 ≤ s.fetches ∧ s.fetches ≤ retryAttempts + 1 ∧ s.fetches ≤ 4 ∧
      s.delays.length = s.fetches - 1 ∧ s.delays.length ≤ 3 ∧
      s.delays = (List.range (s.fetches - 1)).map (fun k => retryDelay * (k + 1)) ∧
      s.delays = [1000, 2000, 3000].take (s.fetches - 1) ∧
      List.Pairwise (fun a b => a ≤ b) s.delays) ∧
    ∀ (statusText : String) (body : Body),
      requestWithRetry rt url options cacheKey (always ⟨429, statusText, body⟩) 1
        = some ⟨.rejected ("HTTP 429: " ++ statusText), rt, 4, [1000, 2000, 3000]⟩ := by
  constructor
  · obtain ⟨s, hs, h1, h2, h3⟩ :=
      requestWithRetryFuel_settles (3 + 1) rt url options cacheKey upstream 1
        (by simp [retryAttempts])
    have hs1 : requestWithRetry rt url options cacheKey upstream 1 = some s := by
      rw [requestWithRetry_one]; exact hs
    have h4 : s.fetches ≤ 4 := by simpa [retryAttempts] using h2
    have hd : s.delays = (List.range (s.fetches - 1)).map (fun k => retryDelay * (k + 1)) := by
      rw [h3]
      simp [Nat.add_comm]
    have ht : s.delays = [1000, 2000, 3000].take (s.fetches - 1) := by
      rw [hd]
      obtain ⟨n, hn⟩ : ∃ n, s.fetches = n + 1 := ⟨s.fetches - 1, by omega⟩
      have hn3 : n ≤ 3 := by omega
      simp only [hn, Nat.add_sub_cancel]
      interval_cases n <;> simp [List.range_succ, retryDelay]
    have hp : List.Pairwise (fun a b => a ≤ b) s.delays := by
      rw [ht]
      exact List.Pairwise.sublist (List.take_sublist _ _) (by decide)
    refine ⟨s, ⟨hs1, h1, by simpa [retryAttempts] using h4, h4, by rw [hd]; simp,
      by rw [hd]; simp; omega, hd, ht, hp⟩, ?_⟩
    intro y hy
    have := hy.1
    rw [hs1] at this
    exact (Option.some.inj this).symm
  · intro statusText body
    have hchain : ∀ i, i < 3 → retriesAt (always ⟨429, statusText, body⟩ i) (1 + i) := by
      intro i hi
      exact retriesAt_429 statusText body _ (by simp [retryAttempts]; omega)
    have hlast : tryBlock ((fun i => always ⟨429, statusText, body⟩ (i + 3)) 0) (1 + 3)
        = .thrown ("HTTP 429: " ++ statusText) := by
      simp [always, tryBlock_429, retryAttempts]
    rw [requestWithRetry_one]
    have e : (3 + 1 : Nat) = 0 + 1 + 3 := by decide
    rw [e, retry_chain 3 (0 + 1) rt _ _ _ _ 1 hchain,
      fuel_step_thrown 0 rt _ _ _ _ _ _ hlast (catchRetries_exhausted _)]
    simp [prepend, List.range_succ, retryDelay]

/-- C6 fails as stated: a fetch that rejects with an error whose message contains `HTTP 4` is not retried, although the next fetch would have returned 200 with a payload. -/
theorem C6_counterexample :
    firstThen 1 (.rejects "Failed to fetch: proxy answered HTTP 407") (.resolves (ok200 "payload")) 0
        = .rejects "Failed to fetch: proxy answered HTTP 407" ∧
      firstThen 1 (.rejects "Failed to fetch: proxy answered HTTP 407") (.resolves (ok200 "payload")) 1
        = .resolves ⟨200, "OK", .json "payload"⟩ ∧
      requestWithRetry rt0 "u" Options.default "k"
          (firstThen 1 (.rejects "Failed to fetch: proxy answered HTTP 407")
            (.resolves (ok200 "payload"))) 1
        = some ⟨.rejected "Failed to fetch: proxy answered HTTP 407", rt0, 1, []⟩ := by
  decide

/-- C6, amended: when the first `k` fetches, `1 ≤ k ≤ 3`, reject with errors whose message does not contain `HTTP 4` and the next fetch returns 200 with a JSON payload, `requestWithRetry` resolves with that payload (and stores it) after `k + 1` fetches, having waited `retryDelay * i` before the `(i + 1)`-th fetch. -/
theorem C6_network_failure_retried (rt : Runtime) (url : String) (options : Options)
    (cacheKey : String) (upstream : Nat → FetchOutcome) (k : Nat) (statusText : String)
    (data : Json) (hk1 : 1 ≤ k) (hk3 : k ≤ 3)
    (hfail : ∀ i, i < k → ∃ m, upstream i = .rejects m ∧ includes m "HTTP 4" = false)
    (hok : upstream k = .resolves ⟨200, statusText, .json data⟩) :
    requestWithRetry rt url options cacheKey upstream 1
      = some ⟨.resolved data, rt.store cacheKey data, k + 1,
          (List.range k).map (fun i => retryDelay * (i + 1))⟩ := by
  have hchain : ∀ i, i < k → retriesAt (upstream i) (1 + i) := by
    intro i hi
    obtain ⟨m, hm, hinc⟩ := hfail i hi
    rw [hm]
    exact retriesAt_rejects m _ (by simp [retryAttempts]; omega) hinc
  have hlast : tryBlock ((fun i => upstream (i + k)) 0) (1 + k) = .returned data := by
    simp only [Nat.zero_add, hok]
    exact tryBlock_ok_json 200 (by decide) (by decide) statusText data _
  rw [requestWithRetry_one]
  have e : (3 + 1 : Nat) = (3 - k) + 1 + k := by omega
  rw [e, retry_chain k (3 - k + 1) rt _ _ _ upstream 1 hchain,
    fuel_step_returned (3 - k) rt _ _ _ _ _ data hlast]
  simp [prepend, Nat.add_comm]

/-- C6, amended, at a concrete input: two fetches fail with `Failed to fetch`, the third returns 200. -/
theorem C6_network_failure_retried_witness :
    (1 ≤ 2 ∧ 2 ≤ 3) ∧
      requestWithRetry rt0 "u" Options.default "k"
          (firstThen 2 (.rejects "Failed to fetch") (.resolves ⟨200, "OK", .json "payload"⟩)) 1
        = some ⟨.resolved "payload", rt0.store "k" "payload", 2 + 1,
            (List.range 2).map (fun i => retryDelay * (i + 1))⟩ :=
  ⟨by decide,
    C6_network_failure_retried rt0 "u" Options.default "k"
      (firstThen 2 (.rejects "Failed to fetch") (.resolves ⟨200, "OK", .json "payload"⟩))
      2 "OK" "payload" (by decide) (by decide)
      (fun i hi => ⟨"Failed to fetch", by simp [firstThen, hi], by decide⟩) rfl⟩

/-- C7 fails as stated: an ok response whose body cannot be parsed is retried; with every body unparsable the call makes four fetches and waits 1000, 2000 and 3000 ms before it rejects. -/
theorem C7_counterexample :
    requestWithRetry rt0 "u" Options.default "k"
        (always ⟨200, "OK", .unparsable "Unexpected token < in JSON at position 0"⟩) 1
      = some ⟨.rejected "Unexpected token < in JSON at position 0", rt0, 4,
          [1000, 2000, 3000]⟩ := by
  decide

/-- C7, amended: an ok response whose body cannot be parsed, with a parse error whose message does not contain `HTTP 4`, is retried like a network failure: `requestWithRetry` waits `retryDelay * 1` and fetches again, so it makes between two and four fetches; and when the first four responses are all of this kind it rejects with the parse error of the fourth response after exactly four fetches and the delays 1000, 2000, 3000, storing nothing. -/
theorem C7_malformed_response_retried (rt : Runtime) (url : String) (options : Options)
    (cacheKey : String) (upstream : Nat → FetchOutcome) (status : Nat)
    (statusText message : String) (h200 : 200 ≤ status) (h299 : status ≤ 299)
    (hfirst : upstream 0 = .resolves ⟨status, statusText, .unparsable message⟩)
    (hmsg : includes message "HTTP 4" = false) :
    ∃ s, requestWithRetry rt url options cacheKey upstream 1 = some s ∧
      2 ≤ s.fetches ∧ s.fetches ≤ 4 ∧ s.delays.head? = some (retryDelay * 1) ∧
      ((∀ i, i < 4 → ∃ st t m, 200 ≤ st ∧ st ≤ 299 ∧
          upstream i = .resolves ⟨st, t, .unparsable m⟩ ∧ includes m "HTTP 4" = false) →
        ∃ st t m, upstream 3 = .resolves ⟨st, t, .unparsable m⟩ ∧
          s = ⟨.rejected m, rt, 4, [1000, 2000, 3000]⟩) := by
  have h0 : retriesAt (upstream 0) 1 := by
    rw [hfirst]
    exact retriesAt_unparsable status h200 h299 statusText message 1 (by decide) hmsg
  obtain ⟨s, hs, h1, h2, _⟩ :=
    requestWithRetryFuel_settles 3 rt url options cacheKey (fun i => upstream (i + 1)) (1 + 1)
      (by simp [retryAttempts])
  have hreq : requestWithRetry rt url options cacheKey upstream 1
      = some { s with fetches := s.fetches + 1, delays := retryDelay * 1 :: s.delays } := by
    rw [requestWithRetry_one, fuel_step_retry 3 rt _ _ _ _ _ h0, hs]
    rfl
  refine ⟨_, hreq, by simp; omega, by simp [retryAttempts] at h2 ⊢; omega, by simp, ?_⟩
  intro hall
  have hchain : ∀ i, i < 3 → retriesAt (upstream i) (1 + i) := by
    intro i hi
    obtain ⟨st, t, m, a, b, hu, hm⟩ := hall i (by omega)
    rw [hu]
    exact retriesAt_unparsable st a b t m _ (by simp [retryAttempts]; omega) hm
  obtain ⟨st, t, m, a, b, hu, _⟩ := hall 3 (by decide)
  have hlast : tryBlock ((fun i => upstream (i + 3)) 0) (1 + 3) = .thrown m := by
    simp only [Nat.zero_add, hu]
    exact tryBlock_ok_unparsable st a b t m _
  have hfull : requestWithRetry rt url options cacheKey upstream 1
      = some ⟨.rejected m, rt, 4, [1000, 2000, 3000]⟩ := by
    rw [requestWithRetry_one]
    have e : (3 + 1 : Nat) = 0 + 1 + 3 := by decide
    rw [e, retry_chain 3 (0 + 1) rt _ _ _ _ 1 hchain,
      fuel_step_thrown 0 rt _ _ _ _ _ _ hlast (catchRetries_exhausted _)]
    simp [prepend, List.range_succ, retryDelay]
  rw [hreq] at hfull
  exact ⟨st, t, m, hu, Option.some.inj hfull⟩

/-- C7, amended, at a concrete input: every response is `200 OK` with a body that is not JSON. -/
theorem C7_malformed_response_retried_witness :
    (200 ≤ 200 ∧ 200 ≤ 299 ∧ includes "Unexpected token < in JSON at position 0" "HTTP 4" = false) ∧
      ∃ s, requestWithRetry rt0 "u" Options.default "k"
          (always ⟨200, "OK", .unparsable "Unexpected token < in JSON at position 0"⟩) 1 = some s ∧
        2 ≤ s.fetches ∧ s.fetches ≤ 4 ∧ s.delays.head? = some (retryDelay * 1) ∧
        ((∀ i, i < 4 → ∃ st t m, 200 ≤ st ∧ st ≤ 299 ∧
            always ⟨200, "OK", .unparsable "Unexpected token < in JSON at position 0"⟩ i
              = .resolves ⟨st, t, .unparsable m⟩ ∧ includes m "HTTP 4" = false) →
          ∃ st t m,
            always ⟨200, "OK", .unparsable "Unexpected token < in JSON at position 0"⟩ 3
              = .resolves ⟨st, t, .unparsable m⟩ ∧
            s = ⟨.rejected m, rt0, 4, [1000, 2000, 3000]⟩) :=
  ⟨by decide,
    C7_malformed_response_retried rt0 "u" Options.default "k"
      (always ⟨200, "OK", .unparsable "Unexpected token < in JSON at position 0"⟩) 200 "OK"
      "Unexpected token < in JSON at position 0" (by decide) (by decide) rfl (by decide)⟩

/-! ## The cache and the eviction timers -/

theorem Cache.get_eq_none_of_has (c : Cache) (key : String) (h : c.has key = false) :
    c.get key = none := by
  unfold Cache.has at h
  unfold Cache.get
  rw [List.any_eq_false] at h
  rw [Option.map_eq_none', List.find?_eq_none]
  intro e he
  simpa using h e he

theorem Cache.has_delete (c : Cache) (k key : String) :
    (c.delete k).has key = (c.has key && !(key == k)) := by
  rw [Bool.eq_iff_iff]
  simp only [Cache.has, Cache.delete, List.any_eq_true, List.mem_filter, Bool.and_eq_true,
    Bool.not_eq_true', beq_iff_eq, beq_eq_false_iff_ne, ne_eq]
  constructor
  · rintro ⟨e, ⟨he, hne⟩, rfl⟩
    exact ⟨⟨e, he, rfl⟩, hne⟩
  · rintro ⟨⟨e, he, rfl⟩, hne⟩
    exact ⟨e, ⟨he, hne⟩, rfl⟩

theorem Cache.has_set (c : Cache) (k : String) (v : Json) (key : String) :
    (c.set k v).has key = (c.has key || key == k) := by
  rw [Bool.eq_iff_iff]
  simp only [Bool.or_eq_true, beq_iff_eq]
  unfold Cache.set
  split
  · rename_i hk
    simp only [Cache.has, List.any_eq_true, List.mem_map, beq_iff_eq] at hk ⊢
    constructor
    · rintro ⟨e, ⟨a, ha, rfl⟩, he⟩
      by_cases h1 : a.1 = k
      · right
        simp only [h1, if_true] at he
        exact he.symm
      · left
        simp only [h1, if_false] at he
        exact ⟨a, ha, he⟩
    · rintro (⟨e, he, rfl⟩ | rfl)
      · by_cases h1 : e.1 = k
        · exact ⟨(k, v), ⟨e, he, by simp [h1]⟩, h1.symm⟩
        · exact ⟨e, ⟨e, he, by simp [h1]⟩, rfl⟩
      · obtain ⟨e, he, h1⟩ := hk
        exact ⟨(key, v), ⟨e, he, by simp [h1]⟩, rfl⟩
  · simp only [Cache.has, List.any_append, List.any_cons, List.any_nil, Bool.or_false,
      Bool.or_eq_true, beq_iff_eq]
    constructor
    · rintro (h | h)
      · exact Or.inl h
      · exact Or.inr h.symm
    · rintro (h | h)
      · exact Or.inl h
      · exact Or.inr h.symm

theorem Cache.mem_set (c : Cache) (k : String) (v : Json) (e : String × Json)
    (h : e ∈ (c.set k v).entries) : e ∈ c.entries ∨ e = (k, v) := by
  unfold Cache.set at h
  split at h
  · simp only [List.mem_map] at h
    obtain ⟨a, ha, rfl⟩ := h
    by_cases h1 : a.1 == k
    · right; simp [h1]
    · left; simpa [h1] using ha
  · simpa using h

theorem Cache.has_foldl_delete (ts : List (Nat × String)) :
    ∀ (c : Cache) (key : String),
      (ts.foldl (fun c t => c.delete t.2) c).has key
        = (c.has key && !(ts.any (fun t => t.2 == key))) := by
  induction ts with
  | nil => intro c key; simp
  | cons t ts ih =>
    intro c key
    rw [List.foldl_cons, ih, Cache.has_delete]
    by_cases h : t.2 = key
    · subst h; simp
    · have hb : (key == t.2) = false := by simpa using fun e : key = t.2 => h e.symm
      have hb2 : (t.2 == key) = false := by simpa using h
      simp [hb, hb2]

/-- Every settled `request`: a cache hit changes nothing and fetches nothing; a miss fetches at least once and leaves the runtime untouched or with the payload stored. -/
theorem request_settles (rt : Runtime) (endpoint : String) (options : Options)
    (upstream : Nat → FetchOutcome) :
    ∃ s, request rt endpoint options upstream = some s ∧
      (rt.api.cache.get (cacheKeyOf rt.api endpoint options) = none → 1 ≤ s.fetches) ∧
      ((∃ d, s.result = .resolved d ∧ s.runtime = rt ∧ s.fetches = 0 ∧
          rt.api.cache.get (cacheKeyOf rt.api endpoint options) = some d) ∨
        (∃ m, s.result = .rejected m ∧ s.runtime = rt ∧ 1 ≤ s.fetches) ∨
        (∃ d, s.result = .resolved d ∧ 1 ≤ s.fetches ∧
          s.runtime = rt.store (cacheKeyOf rt.api endpoint options) d)) := by
  unfold request
  cases hget : rt.api.cache.get (cacheKeyOf rt.api endpoint options) with
  | some d => exact ⟨_, rfl, by simp, Or.inl ⟨d, rfl, rfl, rfl, rfl⟩⟩
  | none =>
    obtain ⟨s, hs, h1, _, _⟩ :=
      requestWithRetryFuel_settles (3 + 1) rt (requestUrl rt.api endpoint) options
        (cacheKeyOf rt.api endpoint options) upstream 1 (by simp [retryAttempts])
    refine ⟨s, by simpa [requestWithRetry_one] using hs, fun _ => h1, Or.inr ?_⟩
    rcases requestWithRetryFuel_runtime _ _ _ _ _ _ _ s hs with ⟨m, hm, hr⟩ | ⟨d, hd, hr⟩
    · exact Or.inl ⟨m, hm, hr, h1⟩
    · exact Or.inr ⟨d, hd, h1, hr⟩

theorem step_api (rt : Runtime) (e : Event) :
    (step rt e).api.baseURL = rt.api.baseURL ∧ (step rt e).api.apiKey = rt.api.apiKey := by
  cases e with
  | request endpoint options upstream =>
    obtain ⟨s, hs, _, h⟩ := request_settles rt endpoint options upstream
    simp only [step, hs]
    rcases h with ⟨d, _, hr, _⟩ | ⟨m, _, hr, _⟩ | ⟨d, _, _, hr⟩ <;> rw [hr] <;>
      simp [Runtime.store]
  | clearCache => simp [step, Runtime.clearCache]
  | elapse ms => simp [step, Runtime.elapse]

theorem run_api (history : List Event) :
    ∀ rt : Runtime, (run rt history).api.baseURL = rt.api.baseURL ∧
      (run rt history).api.apiKey = rt.api.apiKey := by
  induction history with
  | nil => intro rt; exact ⟨rfl, rfl⟩
  | cons e es ih =>
    intro rt
    have h1 := ih (step rt e)
    have h2 := step_api rt e
    simp only [run]
    exact ⟨h1.1.trans h2.1, h1.2.trans h2.2⟩

theorem cacheKeyOf_congr (a b : ApiService) (endpoint : String) (options : Options)
    (h1 : a.baseURL = b.baseURL) (h2 : a.apiKey = b.apiKey) :
    cacheKeyOf a endpoint options = cacheKeyOf b endpoint options := by
  simp [cacheKeyOf, requestUrl, h1, h2]

theorem evictionPending_step (key : String) (bound : Nat) (rt : Runtime) (e : Event)
    (hinv : evictionPending key bound rt) (hno : reinserts key rt e = false) :
    evictionPending key bound (step rt e) := by
  cases e with
  | request endpoint options upstream =>
    obtain ⟨s, hs, _, h⟩ := request_settles rt endpoint options upstream
    simp only [step, hs]
    rcases h with ⟨d, _, hr, _⟩ | ⟨m, _, hr, _⟩ | ⟨d, hd, hf, hr⟩
    · rw [hr]; exact hinv
    · rw [hr]; exact hinv
    · have hne : ¬ cacheKeyOf rt.api endpoint options = key := by
        intro heq
        simp [reinserts, hs, hd, hf, heq] at hno
      rw [hr]
      intro hhas
      have hhas2 : rt.api.cache.has key = true := by
        simp only [Runtime.store, Cache.has_set] at hhas
        have : (key == cacheKeyOf rt.api endpoint options) = false := by
          simp; exact fun e => hne e.symm
        simpa [this] using hhas
      obtain ⟨due, hmem, hlt, hle⟩ := hinv hhas2
      exact ⟨due, by simp [Runtime.store, hmem], hlt, hle⟩
  | clearCache =>
    intro hhas
    simp [step, Runtime.clearCache, Cache.clear, Cache.has] at hhas
  | elapse ms =>
    intro hhas
    simp only [step, Runtime.elapse, Cache.has_foldl_delete, Bool.and_eq_true,
      Bool.not_eq_true', List.any_eq_false] at hhas
    obtain ⟨due, hmem, hlt, hle⟩ := hinv hhas.1
    have hnotdue : ¬ due ≤ rt.now + ms := by
      intro hdue
      have := hhas.2 (due, key) (by simp [List.mem_filter, hmem, hdue])
      simp at this
    refine ⟨due, ?_, ?_, hle⟩
    · simp [step, Runtime.elapse, List.mem_filter, hmem, hnotdue]
    · simp only [step, Runtime.elapse]; omega

theorem evictionPending_run (key : String) (bound : Nat) (history : List Event) :
    ∀ rt : Runtime, evictionPending key bound rt → noReinsertion key rt history = true →
      evictionPending key bound (run rt history) := by
  induction history with
  | nil => intro rt h _; exact h
  | cons e es ih =>
    intro rt h hno
    simp only [noReinsertion, Bool.and_eq_true, Bool.not_eq_true'] at hno
    exact ih (step rt e) (evictionPending_step key bound rt e h hno.1) hno.2

theorem evictionPending_store (rt : Runtime) (key : String) (data : Json) :
    evictionPending key (rt.now + cacheTTL) (rt.store key data) := by
  intro _
  exact ⟨rt.now + cacheTTL, by simp [Runtime.store], by simp [Runtime.store, cacheTTL], le_refl _⟩

/-- C1, on the code: the recorded history ends 150 s after the second call stored its payload at 200 s, with no `clearCache` in between, and yet the next `request` for the same endpoint and options performs a fetch and returns the new payload: the timer left by the first call, due at 300 s, removed the entry stored at 200 s. -/
theorem C1_stale_timer_evicts_fresh_entry :
    (run rt0 (staleTimerHistory.take 5)).now = 200000 ∧
      (run rt0 (staleTimerHistory.take 5)).api.cache.get
          (cacheKeyOf rt0.api "/genre/movie/list" Options.default) = some "second" ∧
      staleTimerHistory.drop 5 = [.elapse 150000] ∧
      (run rt0 staleTimerHistory).now = 350000 ∧ 350000 < 200000 + cacheTTL ∧
      (request (run rt0 staleTimerHistory) "/genre/movie/list" Options.default
          (always (ok200 "third"))).map (fun s => (s.result, s.fetches))
        = some (.resolved "third", 1) :=
  ⟨by decide, by decide, rfl, by decide, by decide, by decide⟩

/-- C2: after `clearCache()` the cache is empty (`getCacheStats()` reports size 0 and no keys), and the next `request`, for any signature, settles after at least one fetch. -/
theorem C2_clearCache_empties (rt : Runtime) :
    rt.clearCache.api.getCacheStats.size = 0 ∧ rt.clearCache.api.getCacheStats.keys = [] ∧
      ∀ (endpoint : String) (options : Options) (upstream : Nat → FetchOutcome),
        ∃ s, request rt.clearCache endpoint options upstream = some s ∧ 1 ≤ s.fetches := by
  refine ⟨rfl, rfl, ?_⟩
  intro endpoint options upstream
  obtain ⟨s, hs, h1, _⟩ := request_settles rt.clearCache endpoint options upstream
  exact ⟨s, hs, h1 rfl⟩

/-- C8: when a payload is stored at time `t` (the runtime after `store`), then after any history without a later store under the same signature that brings the clock to `t + 5 min` or beyond, the signature is no longer cached, and a `request` for it performs a fetch. -/
theorem C8_ttl_expiry (rt : Runtime) (endpoint : String) (options : Options) (data : Json)
    (history : List Event)
    (hno : noReinsertion (cacheKeyOf rt.api endpoint options)
      (rt.store (cacheKeyOf rt.api endpoint options) data) history = true)
    (hlate : rt.now + cacheTTL
      ≤ (run (rt.store (cacheKeyOf rt.api endpoint options) data) history).now) :
    (run (rt.store (cacheKeyOf rt.api endpoint options) data) history).api.cache.has
        (cacheKeyOf rt.api endpoint options) = false ∧
      ∀ upstream : Nat → FetchOutcome,
        ∃ s, request (run (rt.store (cacheKeyOf rt.api endpoint options) data) history)
            endpoint options upstream = some s ∧ 1 ≤ s.fetches := by
  have hinv := evictionPending_run _ _ history _
    (evictionPending_store rt (cacheKeyOf rt.api endpoint options) data) hno
  have hhas : (run (rt.store (cacheKeyOf rt.api endpoint options) data) history).api.cache.has
      (cacheKeyOf rt.api endpoint options) = false := by
    by_contra hne
    obtain ⟨due, _, hlt, hle⟩ := hinv (by simpa using hne)
    omega
  refine ⟨hhas, ?_⟩
  intro upstream
  have hkey : cacheKeyOf (run (rt.store (cacheKeyOf rt.api endpoint options) data) history).api
      endpoint options = cacheKeyOf rt.api endpoint options := by
    have h := run_api history (rt.store (cacheKeyOf rt.api endpoint options) data)
    exact cacheKeyOf_congr _ _ _ _ h.1 h.2
  obtain ⟨s, hs, h1, _⟩ :=
    request_settles (run (rt.store (cacheKeyOf rt.api endpoint options) data) history)
      endpoint options upstream
  exact ⟨s, hs, h1 (by rw [hkey]; exact Cache.get_eq_none_of_has _ _ hhas)⟩

/-- C8 at a concrete input: the genre list stored at time 0 on a fresh client, then 300 s pass. -/
theorem C8_ttl_expiry_witness :
    (noReinsertion (cacheKeyOf rt0.api "/genre/movie/list" Options.default)
        (rt0.store (cacheKeyOf rt0.api "/genre/movie/list" Options.default) "genres")
        [.elapse 300000] = true ∧
      rt0.now + cacheTTL
        ≤ (run (rt0.store (cacheKeyOf rt0.api "/genre/movie/list" Options.default) "genres")
            [.elapse 300000]).now) ∧
      (run (rt0.store (cacheKeyOf rt0.api "/genre/movie/list" Options.default) "genres")
          [.elapse 300000]).api.cache.has
          (cacheKeyOf rt0.api "/genre/movie/list" Options.default) = false :=
  ⟨by decide,
    (C8_ttl_expiry rt0 "/genre/movie/list" Options.default "genres" [.elapse 300000]
      (by decide) (by decide)).1⟩

/-- C9: every `request` settles, and a call that ends in an error leaves the runtime, and so the cache, exactly as it was; any entry in the cache after a call was there before it, or it is this call's signature together with the payload the call resolved with after fetching. -/
theorem C9_only_success_is_cached (rt : Runtime) (endpoint : String) (options : Options)
    (upstream : Nat → FetchOutcome) :
    ∃ s, request rt endpoint options upstream = some s ∧
      (∀ m, s.result = .rejected m →
        s.runtime.api.cache = rt.api.cache ∧ s.runtime = rt) ∧
      (∀ k v, (k, v) ∈ s.runtime.api.cache.entries →
        (k, v) ∈ rt.api.cache.entries ∨
          (k = cacheKeyOf rt.api endpoint options ∧ s.result = .resolved v ∧ 1 ≤ s.fetches)) := by
  obtain ⟨s, hs, _, h⟩ := request_settles rt endpoint options upstream
  refine ⟨s, hs, ?_, ?_⟩
  · intro m hm
    rcases h with ⟨d, hd, _⟩ | ⟨_, _, hr, _⟩ | ⟨d, hd, _⟩
    · rw [hd] at hm; cases hm
    · exact ⟨by rw [hr], hr⟩
    · rw [hd] at hm; cases hm
  · intro k v hmem
    rcases h with ⟨d, _, hr, _⟩ | ⟨_, _, hr, _⟩ | ⟨d, hd, hf, hr⟩
    · left; rwa [hr] at hmem
    · left; rwa [hr] at hmem
    · rw [hr] at hmem
      rcases Cache.mem_set _ _ _ _ hmem with h1 | h1
      · exact Or.inl h1
      · right
        simp only [Prod.mk.injEq] at h1
        exact ⟨h1.1, by rw [hd, h1.2], hf⟩

/-- C10: on a favourites list with no entry of the movie's id, the first `toggleFavorite(movie)` appends the movie at the end, the second removes it, and the two together restore the state, so the favourites list is exactly the original one, same entries in the same order. -/
theorem C10_toggleFavorite_twice (st : StoreState) (movie : Movie)
    (habsent : ∀ fav ∈ st.user.favorites, fav.id ≠ movie.id) :
    (Store.toggleFavorite st movie).user.favorites = st.user.favorites ++ [movie] ∧
      (Store.toggleFavorite (Store.toggleFavorite st movie) movie).user.favorites
        = st.user.favorites ∧
      Store.toggleFavorite (Store.toggleFavorite st movie) movie = st := by
  have hany : st.user.favorites.any (fun fav => fav.id == movie.id) = false := by
    rw [List.any_eq_false]
    intro fav hfav
    simpa using habsent fav hfav
  have hfilter : st.user.favorites.filter (fun fav => fav.id != movie.id) = st.user.favorites := by
    rw [List.filter_eq_self]
    intro fav hfav
    simpa using habsent fav hfav
  have h1 : (Store.toggleFavorite st movie).user.favorites = st.user.favorites ++ [movie] := by
    simp [Store.toggleFavorite, hany]
  have h2 : Store.toggleFavorite (Store.toggleFavorite st movie) movie = st := by
    have hany2 : (st.user.favorites ++ [movie]).any (fun fav => fav.id == movie.id) = true := by
      simp
    have hfilter2 : (st.user.favorites ++ [movie]).filter (fun fav => fav.id != movie.id)
        = st.user.favorites := by
      simp [List.filter_append, hfilter]
    obtain ⟨movies, loading, error, isSearching, searchQuery, totalPages, currentPage, filters,
      user, ui, analytics⟩ := st
    obtain ⟨favorites, watchlist, watched, ratings, theme⟩ := user
    simp only [Store.toggleFavorite, hany] at hany2 hfilter2 ⊢
    simp [hany2, hfilter2]
  exact ⟨h1, by rw [h2], h2⟩

/-- C10 at a concrete input: one favourite with id 7, toggling the movie with id 42. -/
theorem C10_toggleFavorite_twice_witness :
    (∀ fav ∈ (storeWith [⟨7, []⟩]).user.favorites, fav.id ≠ (⟨42, []⟩ : Movie).id) ∧
      (Store.toggleFavorite (storeWith [⟨7, []⟩]) ⟨42, []⟩).user.favorites
        = (storeWith [⟨7, []⟩]).user.favorites ++ [⟨42, []⟩] ∧
      (Store.toggleFavorite (Store.toggleFavorite (storeWith [⟨7, []⟩]) ⟨42, []⟩)
          ⟨42, []⟩).user.favorites = (storeWith [⟨7, []⟩]).user.favorites ∧
      Store.toggleFavorite (Store.toggleFavorite (storeWith [⟨7, []⟩]) ⟨42, []⟩) ⟨42, []⟩
        = storeWith [⟨7, []⟩] :=
  ⟨by decide, C10_toggleFavorite_twice (storeWith [⟨7, []⟩]) ⟨42, []⟩ (by decide)⟩

/-! ## Key-value lists -/

theorem assocGet_assocSet_same {κ ν : Type} [BEq κ] [LawfulBEq κ] (object : List (κ × ν))
    (key : κ) (value : ν) : assocGet (assocSet object key value) key = some value := by
  unfold assocGet assocSet
  split
  · rename_i h
    induction object with
    | nil => simp at h
    | cons p l ih =>
      by_cases hp : p.1 = key
      · simp [hp]
      · have hl : l.any (fun p => p.1 == key) = true := by simpa [hp] using h
        simpa [hp, List.find?_cons] using ih hl
  · rename_i h
    have hnone : object.find? (fun p => p.1 == key) = none := by
      rw [List.find?_eq_none]
      intro p hp hk
      exact h (List.any_eq_true.mpr ⟨p, hp, hk⟩)
    simp [List.find?_append, hnone]

theorem find_map_other {κ ν : Type} [BEq κ] [LawfulBEq κ] (key other : κ) (value : ν)
    (hb : (key == other) = false) (l : List (κ × ν)) :
    ((l.map (fun p => if p.1 == key then (key, value) else p)).find?
        (fun p => p.1 == other)).map (fun p => p.2)
      = (l.find? (fun p => p.1 == other)).map (fun p => p.2) := by
  induction l with
  | nil => rfl
  | cons p l ih =>
    rw [List.map_cons, List.find?_cons, List.find?_cons]
    by_cases hp : (p.1 == key) = true
    · have hpo : (p.1 == other) = false := by
        have : p.1 = key := by simpa using hp
        rw [this]; exact hb
      rw [if_pos hp]
      simp only [hb, hpo]
      exact ih
    · rw [if_neg hp]
      cases hpo : (p.1 == other)
      · simp only []
        exact ih
      · rfl

theorem assocGet_assocSet_other {κ ν : Type} [BEq κ] [LawfulBEq κ] (object : List (κ × ν))
    (key other : κ) (value : ν) (h : other ≠ key) :
    assocGet (assocSet object key value) other = assocGet object other := by
  have hb : (key == other) = false := by simpa using fun e : key = other => h e.symm
  unfold assocGet assocSet
  split
  · exact find_map_other key other value hb object
  · simp [List.find?_append, hb]

theorem mem_assocSet {κ ν : Type} [BEq κ] (object : List (κ × ν)) (key : κ) (value : ν)
    (e : κ × ν) (h : e ∈ assocSet object key value) : e ∈ object ∨ e = (key, value) := by
  unfold assocSet at h
  split at h
  · simp only [List.mem_map] at h
    obtain ⟨a, ha, rfl⟩ := h
    by_cases h1 : (a.1 == key) = true
    · right; simp [h1]
    · left; simpa [h1] using ha
  · simpa using h

/-! ## The collections of the store -/

theorem countId_append (l : List Movie) (m : Movie) (id : Int) :
    countId (l ++ [m]) id = countId l id + (if m.id = id then 1 else 0) := by
  by_cases h : m.id = id <;> simp [countId, List.countP_append, List.countP_cons, h]

theorem countId_filter_ne (l : List Movie) (id : Int) :
    countId (l.filter (fun fav => fav.id != id)) id = 0 := by
  simp [countId, List.countP_eq_zero, List.mem_filter]

theorem countId_eq_zero_of_absent (l : List Movie) (id : Int)
    (h : l.any (fun fav => fav.id == id) = false) : countId l id = 0 := by
  rw [List.any_eq_false] at h
  simp only [countId, List.countP_eq_zero]
  intro m hm
  simpa using h m hm

theorem countId_eq_one_of_present (l : List Movie) (id : Int) (hd : distinctIds l)
    (h : l.any (fun fav => fav.id == id) = true) : countId l id = 1 := by
  have hcount : countId l id = (l.map (fun m => m.id)).count id := by
    simp [countId, List.count, List.countP_map, Function.comp_def]
  have hle : countId l id ≤ 1 := by
    rw [hcount]
    exact List.nodup_iff_count_le_one.mp hd id
  have hpos : 0 < countId l id := by
    rw [List.any_eq_true] at h
    obtain ⟨m, hm, hid⟩ := h
    exact List.countP_pos_iff.mpr ⟨m, hm, hid⟩
  omega

theorem distinctIds_filter (l : List Movie) (p : Movie → Bool) (hd : distinctIds l) :
    distinctIds (l.filter p) :=
  List.Nodup.sublist (List.Sublist.map _ (List.filter_sublist l)) hd

theorem distinctIds_append (l : List Movie) (m : Movie) (hd : distinctIds l)
    (h : l.any (fun item => item.id == m.id) = false) : distinctIds (l ++ [m]) := by
  rw [List.any_eq_false] at h
  unfold distinctIds at hd ⊢
  rw [List.map_append, List.nodup_append]
  refine ⟨hd, by simp, ?_⟩
  intro a ha hb
  simp only [List.map_cons, List.map_nil, List.mem_singleton] at hb
  subst hb
  obtain ⟨x, hx, hxe⟩ := List.mem_map.mp ha
  exact h x hx (by simpa using hxe)

/-- C11 fails as stated: toggling a movie that is not a favourite twice leaves no entry with its id, not one. -/
theorem C11_counterexample :
    distinctIds (storeWith []).user.favorites ∧
      countId (Store.toggleFavorite (Store.toggleFavorite (storeWith []) ⟨42, []⟩)
        ⟨42, []⟩).user.favorites 42 = 0 := by
  refine ⟨?_, by decide⟩
  simp [distinctIds, storeWith]

/-- C11, amended: on a favourites list with pairwise distinct ids, two successive calls of `toggleFavorite(movie)` leave as many entries with the movie's id as there were before: exactly one when the movie was a favourite, none when it was not. -/
theorem C11_toggle_twice_keeps_membership (st : StoreState) (movie : Movie)
    (hd : distinctIds st.user.favorites) :
    countId (Store.toggleFavorite (Store.toggleFavorite st movie) movie).user.favorites movie.id
        = countId st.user.favorites movie.id ∧
      countId (Store.toggleFavorite (Store.toggleFavorite st movie) movie).user.favorites movie.id
        = (if st.user.favorites.any (fun fav => fav.id == movie.id) then 1 else 0) := by
  by_cases h : st.user.favorites.any (fun fav => fav.id == movie.id) = true
  · have hnot : (st.user.favorites.filter (fun fav => fav.id != movie.id)).any
        (fun fav => fav.id == movie.id) = false := by
      rw [List.any_eq_false]
      intro x hx
      simpa using (List.mem_filter.mp hx).2
    have h2 : (Store.toggleFavorite (Store.toggleFavorite st movie) movie).user.favorites
        = st.user.favorites.filter (fun fav => fav.id != movie.id) ++ [movie] := by
      simp only [Store.toggleFavorite, h, if_true, hnot]
      simp
    rw [h2, countId_append, countId_filter_ne, countId_eq_one_of_present _ _ hd h]
    simp [h]
  · have hf : st.user.favorites.any (fun fav => fav.id == movie.id) = false := by
      simpa using h
    have hfilter : (st.user.favorites ++ [movie]).filter (fun fav => fav.id != movie.id)
        = st.user.favorites := by
      rw [List.filter_append, List.filter_eq_self.mpr]
      · simp
      · rw [List.any_eq_false] at hf
        intro x hx
        simpa using hf x hx
    have h2 : (Store.toggleFavorite (Store.toggleFavorite st movie) movie).user.favorites
        = st.user.favorites := by
      simp only [Store.toggleFavorite, hf]
      simp [hfilter]
    rw [h2, countId_eq_zero_of_absent _ _ hf]
    simp [hf]

/-- C11, amended, at a concrete input: the movie with id 7 is the only favourite and is toggled twice. -/
theorem C11_toggle_twice_keeps_membership_witness :
    distinctIds (storeWith [⟨7, []⟩]).user.favorites ∧
      countId (Store.toggleFavorite (Store.toggleFavorite (storeWith [⟨7, []⟩]) ⟨7, []⟩)
          ⟨7, []⟩).user.favorites (⟨7, []⟩ : Movie).id
        = (if (storeWith [⟨7, []⟩]).user.favorites.any
            (fun fav => fav.id == (⟨7, []⟩ : Movie).id) then 1 else 0) :=
  ⟨by simp [distinctIds, storeWith],
    (C11_toggle_twice_keeps_membership (storeWith [⟨7, []⟩]) ⟨7, []⟩
      (by simp [distinctIds, storeWith])).2⟩

/-- C12: when favourites, watchlist and watched each hold pairwise distinct ids, they still do after `toggleFavorite`, `addToWatchlist` or `markAsWatched` with any movie; and `addToWatchlist` and `markAsWatched` leave the state unchanged when the movie's id is already present. -/
theorem C12_collections_stay_distinct (st : StoreState) (movie : Movie) (now : String)
    (h : collectionsDistinct st.user) :
    collectionsDistinct (Store.toggleFavorite st movie).user ∧
      collectionsDistinct (Store.addToWatchlist st movie).user ∧
      collectionsDistinct (Store.markAsWatched st movie now).user ∧
      (st.user.watchlist.any (fun item => item.id == movie.id) = true →
        Store.addToWatchlist st movie = st) ∧
      (st.user.watched.any (fun item => item.id == movie.id) = true →
        Store.markAsWatched st movie now = st) := by
  obtain ⟨hf, hw, hd⟩ := h
  refine ⟨?_, ?_, ?_, ?_, ?_⟩
  · refine ⟨?_, hw, hd⟩
    by_cases hany : st.user.favorites.any (fun fav => fav.id == movie.id) = true
    · simp only [Store.toggleFavorite, hany, if_true]
      exact distinctIds_filter _ _ hf
    · have hany2 : st.user.favorites.any (fun fav => fav.id == movie.id) = false := by
        simpa using hany
      simp only [Store.toggleFavorite, hany2]
      exact distinctIds_append _ _ hf hany2
  · by_cases hany : st.user.watchlist.any (fun item => item.id == movie.id) = true
    · simp only [Store.addToWatchlist, hany]
      exact ⟨hf, hw, hd⟩
    · have hany2 : st.user.watchlist.any (fun item => item.id == movie.id) = false := by
        simpa using hany
      simp only [Store.addToWatchlist, hany2]
      exact ⟨hf, distinctIds_append _ _ hw hany2, hd⟩
  · by_cases hany : st.user.watched.any (fun item => item.id == movie.id) = true
    · simp only [Store.markAsWatched, hany]
      exact ⟨hf, hw, hd⟩
    · have hany2 : st.user.watched.any (fun item => item.id == movie.id) = false := by
        simpa using hany
      simp only [Store.markAsWatched, hany2]
      exact ⟨hf, hw, distinctIds_append _ (movie.withProp "watchedAt" now) hd hany2⟩
  · intro hany
    simp [Store.addToWatchlist, hany]
  · intro hany
    simp [Store.markAsWatched, hany]

/-- C12 at a concrete input: favourites 1 and 2, empty watchlist and watched, and the movie with id 2. -/
theorem C12_collections_stay_distinct_witness :
    collectionsDistinct (storeWith [⟨1, []⟩, ⟨2, []⟩]).user ∧
      collectionsDistinct (Store.toggleFavorite (storeWith [⟨1, []⟩, ⟨2, []⟩]) ⟨2, []⟩).user :=
  ⟨by simp [collectionsDistinct, distinctIds, storeWith],
    (C12_collections_stay_distinct (storeWith [⟨1, []⟩, ⟨2, []⟩]) ⟨2, []⟩ "2024-01-01T00:00:00.000Z"
      (by simp [collectionsDistinct, distinctIds, storeWith])).1⟩

/-- C13: `rateMovie` is last-write-wins with a frame: after `rateMovie(a, r1)` and `rateMovie(a, r2)` the map holds `r2` for `a`; `rateMovie(a, _)` leaves the rating of every other id as it was; and favourites, watchlist, watched and theme are untouched. -/
theorem C13_rateMovie_last_write_wins (st : StoreState) (a : Int) (r1 r2 : Int) :
    assocGet (Store.rateMovie (Store.rateMovie st a r1) a r2).user.ratings a = some r2 ∧
      (∀ b : Int, b ≠ a →
        assocGet (Store.rateMovie st a r1).user.ratings b = assocGet st.user.ratings b) ∧
      (Store.rateMovie st a r1).user.favorites = st.user.favorites ∧
      (Store.rateMovie st a r1).user.watchlist = st.user.watchlist ∧
      (Store.rateMovie st a r1).user.watched = st.user.watched ∧
      (Store.rateMovie st a r1).user.theme = st.user.theme := by
  refine ⟨?_, ?_, rfl, rfl, rfl, rfl⟩
  · exact assocGet_assocSet_same _ a r2
  · intro b hb
    exact assocGet_assocSet_other _ a b r1 hb

/-- C14 fails as stated: `rateMovie` stores whatever rating it is given, here 9. -/
theorem C14_counterexample :
    (∀ e ∈ (storeWith []).user.ratings, 1 ≤ e.2 ∧ e.2 ≤ 5) ∧
      (1, 9) ∈ (Store.rateMovie (storeWith []) 1 9).user.ratings ∧
      ¬ (∀ e ∈ (Store.rateMovie (storeWith []) 1 9).user.ratings, 1 ≤ e.2 ∧ e.2 ≤ 5) := by
  refine ⟨by simp [storeWith], by decide, ?_⟩
  intro h
  have := h (1, 9) (by decide)
  omega

/-- C14, amended: when every value of the ratings map lies between 1 and 5 and the rating passed lies between 1 and 5, every value of the map after `rateMovie(movieId, rating)` lies between 1 and 5. -/
theorem C14_rating_range_kept (st : StoreState) (movieId rating : Int)
    (h : ∀ e ∈ st.user.ratings, 1 ≤ e.2 ∧ e.2 ≤ 5) (h1 : 1 ≤ rating) (h5 : rating ≤ 5) :
    ∀ e ∈ (Store.rateMovie st movieId rating).user.ratings, 1 ≤ e.2 ∧ e.2 ≤ 5 := by
  intro e he
  rcases mem_assocSet _ _ _ e he with h0 | h0
  · exact h e h0
  · subst h0
    exact ⟨h1, h5⟩

/-- C14, amended, at a concrete input: an empty ratings map and the rating 4 for movie 1. -/
theorem C14_rating_range_kept_witness :
    ((∀ e ∈ (storeWith []).user.ratings, 1 ≤ e.2 ∧ e.2 ≤ 5) ∧ (1 : Int) ≤ 4 ∧ (4 : Int) ≤ 5) ∧
      ∀ e ∈ (Store.rateMovie (storeWith []) 1 4).user.ratings, 1 ≤ e.2 ∧ e.2 ≤ 5 :=
  ⟨⟨by simp [storeWith], by decide, by decide⟩,
    C14_rating_range_kept (storeWith []) 1 4 (by simp [storeWith]) (by decide) (by decide)⟩

/-- C15: when every watched entry has a `watchedAt` property, so has every entry after `markAsWatched(movie)`; when the movie's id was absent the collection gains one last entry, which has the movie's id, `watchedAt` set to the current time and every other property as in the movie; and when the id was present the state, earlier `watchedAt` included, is unchanged. -/
theorem C15_watched_entries_carry_timestamp (st : StoreState) (movie : Movie) (now : String)
    (h : ∀ e ∈ st.user.watched, (e.getProp "watchedAt").isSome = true) :
    (∀ e ∈ (Store.markAsWatched st movie now).user.watched,
        (e.getProp "watchedAt").isSome = true) ∧
      (st.user.watched.any (fun item => item.id == movie.id) = false →
        (Store.markAsWatched st movie now).user.watched
            = st.user.watched ++ [movie.withProp "watchedAt" now] ∧
          (movie.withProp "watchedAt" now).id = movie.id ∧
          (movie.withProp "watchedAt" now).getProp "watchedAt" = some now ∧
          ∀ name : String, name ≠ "watchedAt" →
            (movie.withProp "watchedAt" now).getProp name = movie.getProp name) ∧
      (st.user.watched.any (fun item => item.id == movie.id) = true →
        Store.markAsWatched st movie now = st) := by
  have hnew : (movie.withProp "watchedAt" now).getProp "watchedAt" = some now :=
    assocGet_assocSet_same _ _ _
  refine ⟨?_, ?_, ?_⟩
  · intro e he
    by_cases hany : st.user.watched.any (fun item => item.id == movie.id) = true
    · simp only [Store.markAsWatched, hany] at he
      exact h e he
    · have hany2 : st.user.watched.any (fun item => item.id == movie.id) = false := by
        simpa using hany
      simp only [Store.markAsWatched, hany2] at he
      rcases List.mem_append.mp he with h0 | h0
      · exact h e h0
      · rw [List.mem_singleton] at h0
        rw [h0, hnew]
        rfl
  · intro hany
    refine ⟨by simp [Store.markAsWatched, hany], rfl, hnew, ?_⟩
    intro name hname
    exact assocGet_assocSet_other _ _ _ _ hname
  · intro hany
    simp [Store.markAsWatched, hany]

/-- C15 at a concrete input: nothing watched yet, and movie 3 with a title is marked as watched. -/
theorem C15_watched_entries_carry_timestamp_witness :
    (∀ e ∈ (storeWith []).user.watched, (e.getProp "watchedAt").isSome = true) ∧
      ∀ e ∈ (Store.markAsWatched (storeWith []) ⟨3, [("title", "Heat")]⟩
          "2024-01-01T00:00:00.000Z").user.watched,
        (e.getProp "watchedAt").isSome = true :=
  ⟨by simp [storeWith],
    (C15_watched_entries_carry_timestamp (storeWith []) ⟨3, [("title", "Heat")]⟩
      "2024-01-01T00:00:00.000Z" (by simp [storeWith])).1⟩

/-! ## Persistence -/

theorem getItem_write_same (browser : Browser) (key value : String) :
    getItem (browser.write key value).localStorage key = some value :=
  assocGet_assocSet_same _ _ _

theorem getItem_write_other (browser : Browser) (key value other : String) (h : other ≠ key) :
    getItem (browser.write key value).localStorage other = getItem browser.localStorage other :=
  assocGet_assocSet_other _ _ _ _ h

/-- The identities stay well formed under every mutator, so `wellFormed` holds in every state reached from a well-formed one. -/
theorem wellFormed_preserved (json : Stringify) (store : StoreObject) (browser : Browser)
    (movie : Movie) (now theme : String) (movieId rating : Int) (hwf : store.wellFormed) :
    (store.toggleFavorite json browser movie).1.wellFormed ∧
      (store.addToWatchlist json browser movie).1.wellFormed ∧
      (store.markAsWatched json browser movie now).1.wellFormed ∧
      (store.rateMovie json browser movieId rating).1.wellFormed ∧
      (store.setTheme json browser theme).1.wellFormed := by
  obtain ⟨h1, h2, h3, h4⟩ := hwf
  refine ⟨?_, ?_, ?_, ?_, ?_⟩
  · simp only [StoreObject.wellFormed, StoreObject.toggleFavorite, StoreObject.setStateUser]
    omega
  · unfold StoreObject.addToWatchlist
    split
    · simp only [StoreObject.wellFormed, StoreObject.setStateUser]
      omega
    · exact ⟨h1, h2, h3, h4⟩
  · unfold StoreObject.markAsWatched
    split
    · simp only [StoreObject.wellFormed, StoreObject.setStateUser]
      omega
    · exact ⟨h1, h2, h3, h4⟩
  · simp only [StoreObject.wellFormed, StoreObject.rateMovie, StoreObject.setStateUser]
    omega
  · simp only [StoreObject.wellFormed, StoreObject.setTheme, StoreObject.setStateUser]
    exact ⟨h1, h2, h3, h4⟩

/-- C16: with `persistenceMiddleware` installed, `toggleFavorite`, `rateMovie`, and `addToWatchlist` and `markAsWatched` for an absent id, install the new collection and perform exactly one `localStorage.setItem`, of the JSON text of the new collection under its key `movieflix-<collection>`; so that key holds the text, and every other key and the `data-theme` attribute are as before. -/
theorem C16_write_on_every_mutation (json : Stringify) (store : StoreObject) (browser : Browser)
    (movie : Movie) (now : String) (movieId rating : Int)
    (hwf : store.wellFormed) (hinst : store.persistence = true) :
    ((store.toggleFavorite json browser movie).1.current.state
          = Store.toggleFavorite store.current.state movie ∧
        (store.toggleFavorite json browser movie).2
          = browser.write "movieflix-favorites"
              (json.movies (Store.toggleFavorite store.current.state movie).user.favorites)) ∧
      (store.current.state.user.watchlist.any (fun item => item.id == movie.id) = false →
        (store.addToWatchlist json browser movie).1.current.state
            = Store.addToWatchlist store.current.state movie ∧
          (store.addToWatchlist json browser movie).2
            = browser.write "movieflix-watchlist"
                (json.movies (Store.addToWatchlist store.current.state movie).user.watchlist)) ∧
      (store.current.state.user.watched.any (fun item => item.id == movie.id) = false →
        (store.markAsWatched json browser movie now).1.current.state
            = Store.markAsWatched store.current.state movie now ∧
          (store.markAsWatched json browser movie now).2
            = browser.write "movieflix-watched"
                (json.movies (Store.markAsWatched store.current.state movie now).user.watched)) ∧
      ((store.rateMovie json browser movieId rating).1.current.state
          = Store.rateMovie store.current.state movieId rating ∧
        (store.rateMovie json browser movieId rating).2
          = browser.write "movieflix-ratings"
              (json.ratings (Store.rateMovie store.current.state movieId rating).user.ratings)) ∧
      ∀ key value : String,
        getItem (browser.write key value).localStorage key = some value ∧
          (∀ other : String, other ≠ key →
            getItem (browser.write key value).localStorage other
              = getItem browser.localStorage other) ∧
          (browser.write key value).dataTheme = browser.dataTheme := by
  obtain ⟨h1, h2, h3, h4⟩ := hwf
  have n1 : (store.current.refs.favorites != store.nextRef) = true := by
    simp; omega
  have n2 : (store.current.refs.watchlist != store.nextRef) = true := by
    simp; omega
  have n3 : (store.current.refs.watched != store.nextRef) = true := by
    simp; omega
  have n4 : (store.current.refs.ratings != store.nextRef) = true := by
    simp; omega
  refine ⟨⟨?_, ?_⟩, ?_, ?_, ⟨?_, ?_⟩, ?_⟩
  · simp [StoreObject.toggleFavorite, StoreObject.setStateUser, Store.toggleFavorite]
  · simp [StoreObject.toggleFavorite, StoreObject.setStateUser, persistenceMiddleware, hinst, n1,
      Store.toggleFavorite]
  · intro habs
    constructor
    · simp [StoreObject.addToWatchlist, StoreObject.setStateUser, Store.addToWatchlist, habs]
    · simp [StoreObject.addToWatchlist, StoreObject.setStateUser, persistenceMiddleware, hinst, n2,
        Store.addToWatchlist, habs]
  · intro habs
    constructor
    · simp [StoreObject.markAsWatched, StoreObject.setStateUser, Store.markAsWatched, habs]
    · simp [StoreObject.markAsWatched, StoreObject.setStateUser, persistenceMiddleware, hinst, n3,
        Store.markAsWatched, habs]
  · simp [StoreObject.rateMovie, StoreObject.setStateUser, Store.rateMovie]
  · simp [StoreObject.rateMovie, StoreObject.setStateUser, persistenceMiddleware, hinst, n4,
      Store.rateMovie]
  · intro key value
    exact ⟨getItem_write_same browser key value,
      fun other h => getItem_write_other browser key value other h, rfl⟩

/-- C16 at a concrete input: a store with the middleware installed, favourite 7, and movie 42 toggled on an empty page. -/
theorem C16_write_on_every_mutation_witness :
    ((storeObjectWith [⟨7, []⟩]).wellFormed ∧ (storeObjectWith [⟨7, []⟩]).persistence = true) ∧
      ((storeObjectWith [⟨7, []⟩]).toggleFavorite sampleStringify emptyBrowser ⟨42, []⟩).2
        = emptyBrowser.write "movieflix-favorites"
            (sampleStringify.movies
              (Store.toggleFavorite (storeObjectWith [⟨7, []⟩]).current.state ⟨42, []⟩).user.favorites) :=
  ⟨⟨by simp [StoreObject.wellFormed, storeObjectWith], rfl⟩,
    (C16_write_on_every_mutation sampleStringify (storeObjectWith [⟨7, []⟩]) emptyBrowser
      ⟨42, []⟩ "2024-01-01T00:00:00.000Z" 42 5
      (by simp [StoreObject.wellFormed, storeObjectWith]) rfl).1.2⟩

/-- C17, on the code: switching the theme to `light` makes the middleware store the bare text `light` under `movieflix-theme`; `JSON.parse` throws on that text, so a store constructed over the same storage loads the default `dark`, not `light`. -/
theorem C17_theme_not_restored (json : Stringify) (parse : String → Option String)
    (store : StoreObject) (browser : Browser) (hinst : store.persistence = true)
    (hold : store.current.state.user.theme ≠ "light") (hparse : parse "light" = none) :
    (store.setTheme json browser "light").1.current.state.user.theme = "light" ∧
      getItem (store.setTheme json browser "light").2.localStorage "movieflix-theme"
        = some "light" ∧
      loadTheme parse true (store.setTheme json browser "light").2.localStorage = "dark" := by
  have hne : (store.current.state.user.theme != "light") = true := by simpa using hold
  have hstore : (store.setTheme json browser "light").2.localStorage
      = setItem browser.localStorage "movieflix-theme" "light" := by
    simp [StoreObject.setTheme, StoreObject.setStateUser, persistenceMiddleware, hinst, hne]
  have hget : getItem (store.setTheme json browser "light").2.localStorage "movieflix-theme"
      = some "light" := by
    rw [hstore]
    exact assocGet_assocSet_same _ _ _
  refine ⟨by simp [StoreObject.setTheme, StoreObject.setStateUser], hget, ?_⟩
  have hkey : ("movieflix-" ++ "theme" : String) = "movieflix-theme" := by decide
  simp [loadTheme, loadFromStorage, hkey, hget, hparse]

/-- C17, on the code, at a concrete input: the constructor's `dark` theme switched to `light` on an empty page, with `JSON.parse` for string texts. -/
theorem C17_theme_not_restored_witness :
    ((storeObjectWith []).persistence = true ∧
        (storeObjectWith []).current.state.user.theme ≠ "light" ∧
        parseJsonString "light" = none) ∧
      loadTheme parseJsonString true
          ((storeObjectWith []).setTheme sampleStringify emptyBrowser "light").2.localStorage
        = "dark" :=
  ⟨⟨rfl, by decide, by decide⟩,
    (C17_theme_not_restored sampleStringify parseJsonString (storeObjectWith []) emptyBrowser rfl
      (by decide) (by decide)).2.2⟩

/-! ## The movie lists of the views -/

/-- C18: when the request of `fetchMovies` for page `p` settles with a response, `hasMore` is set to true exactly when `p < total_pages`, in `useMovies.fetchMovies` and in the `fetchMovies` of `App-old.jsx`; page 1 of 500 gives true and page 500 of 500 gives false. -/
theorem C18_hasMore (service : ServiceCall → Fetched) (h : useMovies.State)
    (apiKey : String) (encodeURIComponent : String → String) (fetch : String → AppOld.FetchResult)
    (f : AppOld.Filters) (st : AppOld.State) (query : String) (p : Nat) (append : Bool)
    (movieCategory : String) (response : TMDBResponse) :
    (service (useMovies.serviceCall query p movieCategory) = .resolved response →
        ((useMovies.fetchMovies service h query p append movieCategory).hasMore = true
          ↔ p < response.total_pages)) ∧
      (fetch (AppOld.endpoint apiKey encodeURIComponent f query p movieCategory)
          = .resolves true (.data response) →
        ((AppOld.fetchMovies apiKey encodeURIComponent fetch f st query p append
            movieCategory).hasMore = true ↔ p < response.total_pages)) ∧
      (useMovies.fetchMovies (fun _ => .resolved ⟨1, [], 500, 10000⟩) h "" 1 false
          "popular").hasMore = true ∧
      (useMovies.fetchMovies (fun _ => .resolved ⟨500, [], 500, 10000⟩) h "" 500 false
          "popular").hasMore = false ∧
      (AppOld.fetchMovies apiKey encodeURIComponent
          (fun _ => .resolves true (.data ⟨1, [], 500, 10000⟩)) f st "" 1 false
          "popular").hasMore = true ∧
      (AppOld.fetchMovies apiKey encodeURIComponent
          (fun _ => .resolves true (.data ⟨500, [], 500, 10000⟩)) f st "" 500 false
          "popular").hasMore = false := by
  refine ⟨?_, ?_, ?_, ?_, ?_, ?_⟩
  · intro hs
    simp [useMovies.fetchMovies, hs]
  · intro hs
    simp [AppOld.fetchMovies, hs]
  · simp [useMovies.fetchMovies]
  · simp [useMovies.fetchMovies]
  · simp [AppOld.fetchMovies]
  · simp [AppOld.fetchMovies]

theorem startsWith_append (pre rest : String) : startsWith (pre ++ rest) pre = true := by
  simp [startsWith, String.data_append, List.isPrefixOf_iff_prefix]

theorem jsLength_empty : jsLength "" = 0 := by decide

/-- C19: for the empty search text the search box of `DashboardLayout` calls `getMovies` and not `searchMovies`, `useMovies.fetchMovies` calls a category method and not `searchMovies`, and the `fetchMovies` of `App-old.jsx` labels the request with the category and fetches a `/movie/<category>` URL, not the `/search/movie` one. -/
theorem C19_empty_query_guard (filters : FilterState) (pageNum : Nat) (movieCategory : String)
    (apiKey : String) (encodeURIComponent : String → String) (f : AppOld.Filters) :
    DashboardLayout.debouncedSearch filters ""
        = some (.getMovies filters.category 1 filters) ∧
      (∀ q : String, DashboardLayout.debouncedSearch filters "" ≠ some (.searchMovies q)) ∧
      (∀ (q : String) (p : Nat),
        useMovies.serviceCall "" pageNum movieCategory ≠ .searchMovies q p) ∧
      (useMovies.serviceCall "" pageNum movieCategory = .getPopularMovies pageNum ∨
        useMovies.serviceCall "" pageNum movieCategory = .getTopRatedMovies pageNum ∨
        useMovies.serviceCall "" pageNum movieCategory = .getNowPlaying pageNum) ∧
      AppOld.label "" movieCategory = movieCategory ∧
      startsWith (AppOld.endpoint apiKey encodeURIComponent f "" pageNum movieCategory)
        "https://api.themoviedb.org/3/movie/" = true := by
  have hd : DashboardLayout.debouncedSearch filters ""
      = some (.getMovies filters.category 1 filters) := by
    simp [DashboardLayout.debouncedSearch, jsLength_empty]
  have hcases : useMovies.serviceCall "" pageNum movieCategory = .getPopularMovies pageNum ∨
      useMovies.serviceCall "" pageNum movieCategory = .getTopRatedMovies pageNum ∨
      useMovies.serviceCall "" pageNum movieCategory = .getNowPlaying pageNum := by
    unfold useMovies.serviceCall
    by_cases h1 : movieCategory = "popular"
    · left; simp [h1]
    · by_cases h2 : movieCategory = "top_rated"
      · right; left; simp [h2]
      · right; right; simp [h1, h2]
  refine ⟨hd, ?_, ?_, hcases, by simp [AppOld.label], ?_⟩
  · intro q hq
    rw [hd] at hq
    cases hq
  · intro q p hq
    rcases hcases with h | h | h <;> rw [h] at hq <;> cases hq
  · have hshape : ∃ rest : String,
        AppOld.endpoint apiKey encodeURIComponent f "" pageNum movieCategory
          = "https://api.themoviedb.org/3/movie/" ++ rest := by
      simp only [AppOld.endpoint]
      have he : (("" : String) != "") = false := by decide
      simp only [he, Bool.false_eq_true, if_false]
      split <;> split <;> split <;>
        exact ⟨_, by (try simp only [String.append_assoc]); rfl⟩
    obtain ⟨rest, hrest⟩ := hshape
    rw [hrest]
    exact startsWith_append _ _

/-- C20 fails as stated: the search box passes the typed text `  a `, and the hook passes a single blank, to `searchMovies` untrimmed. -/
theorem C20_counterexample :
    DashboardLayout.debouncedSearch ⟨"popular", "", "", 0, "popularity.desc"⟩ "  a "
        = some (.searchMovies "  a ") ∧
      edgeWhitespace "  a " = true ∧
      useMovies.serviceCall " " 1 "popular" = .searchMovies " " 1 ∧
      edgeWhitespace " " = true := by
  decide

/-- C20, amended: a query reaches `searchMovies` exactly as it was typed, without trimming, and only when it is non-empty: from the search box of `DashboardLayout` exactly when the typed text is longer than two UTF-16 units, from `useMovies.fetchMovies` exactly when it is not the empty text. -/
theorem C20_query_passed_as_typed (filters : FilterState) (typed q : String) (p p2 : Nat)
    (movieCategory : String) :
    (DashboardLayout.debouncedSearch filters typed = some (.searchMovies q)
        ↔ q = typed ∧ 2 < jsLength typed) ∧
      (2 < jsLength typed → typed ≠ "") ∧
      (useMovies.serviceCall typed p movieCategory = .searchMovies q p2
        ↔ q = typed ∧ p2 = p ∧ typed ≠ "") := by
  refine ⟨?_, ?_, ?_⟩
  · unfold DashboardLayout.debouncedSearch
    by_cases h : 2 < jsLength typed
    · simp [h, eq_comm]
    · by_cases h0 : jsLength typed = 0
      · simp [h, h0]
      · simp [h, h0]
  · intro h he
    rw [he, jsLength_empty] at h
    omega
  · unfold useMovies.serviceCall
    by_cases h : typed = ""
    · subst h
      simp only [bne_self_eq_false, Bool.false_eq_true, if_false]
      constructor
      · intro hq
        split at hq
        · cases hq
        · split at hq <;> cases hq
      · intro hq
        exact absurd rfl hq.2.2
    · have hb : (typed != "") = true := by simpa using h
      simp [hb, h, eq_comm]

/-! ## Diagnostics, comparison list, image URLs -/

theorem measureAll_invariant {α : Type} (calls : List (AppOld.Measured α)) :
    ∀ metrics : AppOld.ApiMetrics,
      (AppOld.measureAll metrics calls).calls
          = metrics.calls + (AppOld.durations calls).length ∧
        (AppOld.measureAll metrics calls).avgTime
            * ((AppOld.measureAll metrics calls).calls : ℚ)
          = metrics.avgTime * (metrics.calls : ℚ) + (AppOld.durations calls).sum := by
  induction calls with
  | nil => intro metrics; simp [AppOld.measureAll, AppOld.durations]
  | cons c cs ih =>
    intro metrics
    cases c with
    | rejects e =>
      simpa [AppOld.measureAll, AppOld.measureApiCall, AppOld.durations] using ih metrics
    | resolves r d =>
      obtain ⟨h1, h2⟩ := ih (AppOld.measureApiCall metrics (.resolves r d)).1
      have hne : ((metrics.calls : ℚ) + 1) ≠ 0 := by positivity
      constructor
      · simp only [AppOld.measureAll, AppOld.durations, List.length_cons]
        rw [h1]
        simp only [AppOld.measureApiCall]
        omega
      · simp only [AppOld.measureAll, AppOld.durations, List.sum_cons]
        rw [h2]
        simp only [AppOld.measureApiCall, Nat.cast_add, Nat.cast_one]
        rw [div_mul_cancel₀ _ hne]
        ring

/-- C21: starting from `{ calls: 0, avgTime: 0 }`, after any sequence of `measureApiCall` calls of which at least one resolved, `calls` is the number of resolved calls and `avgTime` is the sum of their durations divided by that number; a call whose `apiCall` rejects leaves the metrics as they were and throws the same error. -/
theorem C21_running_average {α : Type} (calls : List (AppOld.Measured α))
    (h : AppOld.durations calls ≠ []) :
    (AppOld.measureAll AppOld.ApiMetrics.initial calls).calls
        = (AppOld.durations calls).length ∧
      (AppOld.measureAll AppOld.ApiMetrics.initial calls).avgTime
        = (AppOld.durations calls).sum / ((AppOld.durations calls).length : ℚ) ∧
      ∀ (metrics : AppOld.ApiMetrics) (error : String),
        AppOld.measureApiCall metrics (.rejects error : AppOld.Measured α)
          = (metrics, .thrown error) := by
  obtain ⟨h1, h2⟩ := measureAll_invariant calls AppOld.ApiMetrics.initial
  have hc : (AppOld.measureAll AppOld.ApiMetrics.initial calls).calls
      = (AppOld.durations calls).length := by
    simpa [AppOld.ApiMetrics.initial] using h1
  have hpos : ((AppOld.durations calls).length : ℚ) ≠ 0 := by
    have : 0 < (AppOld.durations calls).length := List.length_pos.mpr h
    exact_mod_cast this.ne'
  refine ⟨hc, ?_, fun _ _ => rfl⟩
  rw [hc] at h2
  rw [eq_div_iff hpos, h2]
  simp [AppOld.ApiMetrics.initial]

/-- C21 at a concrete input: a call of 100 ms, a rejected call, a call of 300 ms. -/
theorem C21_running_average_witness :
    AppOld.durations [AppOld.Measured.resolves "a" 100, .rejects "down", .resolves "b" 300]
        ≠ [] ∧
      (AppOld.measureAll AppOld.ApiMetrics.initial
          [AppOld.Measured.resolves "a" 100, .rejects "down", .resolves "b" 300]).calls
        = (AppOld.durations
            [AppOld.Measured.resolves "a" 100, .rejects "down", .resolves "b" 300]).length :=
  ⟨by simp [AppOld.durations],
    (C21_running_average
      [AppOld.Measured.resolves "a" 100, .rejects "down", .resolves "b" 300]
      (by simp [AppOld.durations])).1⟩

/-- C23: for a non-empty path fragment `p`, `getOptimizedImageUrl(p, isMobile)` is the base, the size `w300` when mobile and `w500` otherwise, and `p`; `getImageUrl(p, size)` is the base, the size and `p`; the two agree for the default size; and both return `/placeholder.jpg` for `null` and for the empty path. -/
theorem C23_image_url (p : String) (isMobile : Bool) (size : String) (hp : p ≠ "") :
    getOptimizedImageUrl (some p) isMobile
        = "https://image.tmdb.org/t/p/" ++ (if isMobile then "w300" else "w500") ++ p ∧
      getImageUrl (some p) size = "https://image.tmdb.org/t/p/" ++ size ++ p ∧
      getOptimizedImageUrl (some p) false = getImageUrl (some p) defaultImageSize ∧
      getOptimizedImageUrl none isMobile = "/placeholder.jpg" ∧
      getOptimizedImageUrl (some "") isMobile = "/placeholder.jpg" ∧
      getImageUrl none size = "/placeholder.jpg" ∧
      getImageUrl (some "") size = "/placeholder.jpg" := by
  have hf : falsyPath (some p) = false := by simpa [falsyPath] using hp
  refine ⟨?_, ?_, ?_, ?_, ?_, ?_, ?_⟩
  · simp [getOptimizedImageUrl, hf, pathText]
  · simp [getImageUrl, hf, pathText]
  · simp [getOptimizedImageUrl, getImageUrl, hf, pathText, defaultImageSize]
  · simp [getOptimizedImageUrl, falsyPath]
  · simp [getOptimizedImageUrl, falsyPath]
  · simp [getImageUrl, falsyPath]
  · simp [getImageUrl, falsyPath]

/-- C23 at a concrete input: the poster path `/test.jpg` on a mobile layout. -/
theorem C23_image_url_witness :
    ("/test.jpg" : String) ≠ "" ∧
      getOptimizedImageUrl (some "/test.jpg") true
        = "https://image.tmdb.org/t/p/" ++ (if true then "w300" else "w500") ++ "/test.jpg" :=
  ⟨by decide, (C23_image_url "/test.jpg" true "w500" (by decide)).1⟩

theorem find_isSome_eq_any (l : List Movie) (id : Int) :
    (l.find? (fun m => m.id == id)).isSome = l.any (fun m => m.id == id) := by
  induction l with
  | nil => rfl
  | cons a l ih =>
    by_cases h : a.id = id
    · simp [List.find?_cons, h]
    · simp [List.find?_cons, h, ih]

theorem toggleCompare_invariant (st : AppOld.CompareState) (movie : Movie)
    (hlen : st.compareMovies.length ≤ 3) (hd : distinctIds st.compareMovies) :
    (AppOld.toggleCompare st movie).compareMovies.length ≤ 3 ∧
      distinctIds (AppOld.toggleCompare st movie).compareMovies := by
  unfold AppOld.toggleCompare
  rw [find_isSome_eq_any]
  by_cases hany : st.compareMovies.any (fun m => m.id == movie.id) = true
  · simp only [hany, if_true]
    exact ⟨le_trans (List.length_filter_le _ _) hlen, distinctIds_filter _ _ hd⟩
  · have hany2 : st.compareMovies.any (fun m => m.id == movie.id) = false := by
      simpa using hany
    simp only [hany2, Bool.false_eq_true, if_false]
    by_cases h3 : st.compareMovies.length < 3
    · simp only [h3, if_true]
      exact ⟨by simp; omega, distinctIds_append _ _ hd hany2⟩
    · simp only [h3, if_false]
      exact ⟨hlen, hd⟩

theorem toggleCompareAll_invariant (movies : List Movie) :
    ∀ st : AppOld.CompareState, st.compareMovies.length ≤ 3 → distinctIds st.compareMovies →
      (AppOld.toggleCompareAll st movies).compareMovies.length ≤ 3 ∧
        distinctIds (AppOld.toggleCompareAll st movies).compareMovies := by
  induction movies with
  | nil => intro st h1 h2; exact ⟨h1, h2⟩
  | cons m ms ih =>
    intro st h1 h2
    obtain ⟨a, b⟩ := toggleCompare_invariant st m h1 h2
    exact ih _ a b

/-- C25: starting from the empty comparison list, after any sequence of `toggleCompare` calls the list holds at most 3 movies with pairwise distinct ids; and on any list, `toggleCompare` removes a movie whose id is in the list, appends an absent one when fewer than 3 are held, and leaves the list unchanged when 3 or more are held. -/
theorem C25_comparison_limit (movies : List Movie) (st : AppOld.CompareState) (movie : Movie) :
    ((AppOld.toggleCompareAll ⟨[], none⟩ movies).compareMovies.length ≤ 3 ∧
        distinctIds (AppOld.toggleCompareAll ⟨[], none⟩ movies).compareMovies) ∧
      (st.compareMovies.any (fun m => m.id == movie.id) = true →
        (AppOld.toggleCompare st movie).compareMovies
          = st.compareMovies.filter (fun m => m.id != movie.id)) ∧
      (st.compareMovies.any (fun m => m.id == movie.id) = false →
        st.compareMovies.length < 3 →
        (AppOld.toggleCompare st movie).compareMovies = st.compareMovies ++ [movie]) ∧
      (st.compareMovies.any (fun m => m.id == movie.id) = false →
        3 ≤ st.compareMovies.length →
        (AppOld.toggleCompare st movie).compareMovies = st.compareMovies) := by
  refine ⟨toggleCompareAll_invariant movies ⟨[], none⟩ (by simp) (by simp [distinctIds]),
    ?_, ?_, ?_⟩
  · intro h
    simp [AppOld.toggleCompare, find_isSome_eq_any, h]
  · intro h h3
    simp [AppOld.toggleCompare, find_isSome_eq_any, h, h3]
  · intro h h3
    have : ¬ st.compareMovies.length < 3 := by omega
    simp [AppOld.toggleCompare, find_isSome_eq_any, h, this]

theorem addToWatchlist_frame (st : StoreState) (movie : Movie) :
    (Store.addToWatchlist st movie).user.watched = st.user.watched ∧
      (Store.addToWatchlist st movie).user.favorites = st.user.favorites ∧
      (Store.addToWatchlist st movie).user.ratings = st.user.ratings ∧
      (Store.addToWatchlist st movie).user.watchlist.any (fun item => item.id == movie.id)
        = true := by
  by_cases h : st.user.watchlist.any (fun item => item.id == movie.id) = true
  · simp [Store.addToWatchlist, h]
  · have h2 : st.user.watchlist.any (fun item => item.id == movie.id) = false := by
      simpa using h
    simp [Store.addToWatchlist, h2]

/-- C28, on the code: the `Add to Watchlist` button first calls `markAsWatched`, so for a movie that was not watched the watched collection gains an entry with a `watchedAt` time and is no longer the one before the click; favourites and ratings are kept and the movie is in the watchlist. -/
theorem C28_add_to_watchlist_marks_watched (st : StoreState) (movieDetails : Movie)
    (now : String)
    (habsent : st.user.watched.any (fun item => item.id == movieDetails.id) = false) :
    (MovieModal.addToWatchlistClick st movieDetails now).user.watched
        = st.user.watched ++ [movieDetails.withProp "watchedAt" now] ∧
      (MovieModal.addToWatchlistClick st movieDetails now).user.watched ≠ st.user.watched ∧
      (MovieModal.addToWatchlistClick st movieDetails now).user.favorites = st.user.favorites ∧
      (MovieModal.addToWatchlistClick st movieDetails now).user.ratings = st.user.ratings ∧
      (MovieModal.addToWatchlistClick st movieDetails now).user.watchlist.any
        (fun item => item.id == movieDetails.id) = true := by
  obtain ⟨f1, f2, f3, f4⟩ :=
    addToWatchlist_frame (Store.markAsWatched st movieDetails now) movieDetails
  have hw : (MovieModal.addToWatchlistClick st movieDetails now).user.watched
      = st.user.watched ++ [movieDetails.withProp "watchedAt" now] := by
    unfold MovieModal.addToWatchlistClick
    rw [f1]
    simp [Store.markAsWatched, habsent]
  refine ⟨hw, ?_, ?_, ?_, f4⟩
  · rw [hw]
    intro h
    have := congrArg List.length h
    simp at this
  · unfold MovieModal.addToWatchlistClick
    rw [f2]
    simp [Store.markAsWatched, habsent]
  · unfold MovieModal.addToWatchlistClick
    rw [f3]
    simp [Store.markAsWatched, habsent]

/-- C28, on the code, at a concrete input: nothing watched, and the button is clicked for movie 1. -/
theorem C28_add_to_watchlist_marks_watched_witness :
    (storeWith []).user.watched.any (fun item => item.id == (⟨1, []⟩ : Movie).id) = false ∧
      (MovieModal.addToWatchlistClick (storeWith []) ⟨1, []⟩ "2024-01-01T00:00:00.000Z").user.watched
        ≠ (storeWith []).user.watched :=
  ⟨by decide,
    (C28_add_to_watchlist_marks_watched (storeWith []) ⟨1, []⟩ "2024-01-01T00:00:00.000Z"
      (by decide)).2.1⟩

/-- C30, on the code: the state that `getDerivedStateFromError` produces from the initial state is `{ hasError: true, error: null, errorInfo: null }`, and `render` in that state throws a `TypeError` on `this.state.errorInfo.componentStack`; after `componentDidCatch` it returns the fallback. -/
theorem C30_render_throws_before_componentDidCatch :
    ErrorBoundary.getDerivedStateFromError ErrorBoundary.initial = ⟨true, none, none⟩ ∧
      ErrorBoundary.render ⟨true, none, none⟩
        = .typeError "Cannot read properties of null (reading componentStack)" ∧
      ErrorBoundary.render
          (ErrorBoundary.componentDidCatch
            (ErrorBoundary.getDerivedStateFromError ErrorBoundary.initial) "Error: boom"
            ⟨"at App"⟩)
        = .fallback "Error: boom" "at App" := by
  decide

/-! ## The sitemap -/

theorem findIndexFrom_none (p : Movie → Bool) (l : List Movie) :
    ∀ i, l.any p = false → Sitemap.findIndexFrom p i l = none := by
  induction l with
  | nil => intro i _; rfl
  | cons m ms ih =>
    intro i h
    simp only [List.any_cons, Bool.or_eq_false_iff] at h
    simp [Sitemap.findIndexFrom, h.1, ih (i + 1) h.2]

theorem findIndexFrom_lt (p : Movie → Bool) (l : List Movie) :
    ∀ i, l.any p = true → ∃ j, Sitemap.findIndexFrom p i l = some j ∧ j < i + l.length := by
  induction l with
  | nil => intro i h; simp at h
  | cons m ms ih =>
    intro i h
    by_cases hm : p m = true
    · exact ⟨i, by simp [Sitemap.findIndexFrom, hm], by simp⟩
    · have hms : ms.any p = true := by simpa [hm] using h
      obtain ⟨j, hj, hlt⟩ := ih (i + 1) hms
      exact ⟨j, by simp [Sitemap.findIndexFrom, hm, hj], by simp; omega⟩

theorem findIndexFrom_append (p : Movie → Bool) (pre suf : List Movie) :
    ∀ i, Sitemap.findIndexFrom p i (pre ++ suf)
      = if pre.any p then Sitemap.findIndexFrom p i pre
        else Sitemap.findIndexFrom p (i + pre.length) suf := by
  induction pre with
  | nil => intro i; simp
  | cons m ms ih =>
    intro i
    by_cases hm : p m = true
    · simp [Sitemap.findIndexFrom, hm]
    · simp only [List.cons_append, Sitemap.findIndexFrom, hm, Bool.false_eq_true, if_false,
        List.any_cons, Bool.false_or, List.length_cons]
      have h := ih (i + 1)
      have e : i + 1 + ms.length = i + (ms.length + 1) := by omega
      rw [e] at h
      exact h

theorem firstOccurrences_congr (l : List Movie) :
    ∀ s1 s2 : List Int, (∀ x, x ∈ s1 ↔ x ∈ s2) →
      Sitemap.firstOccurrences s1 l = Sitemap.firstOccurrences s2 l := by
  induction l with
  | nil => intro _ _ _; rfl
  | cons m ms ih =>
    intro s1 s2 h
    have hc : s1.contains m.id = s2.contains m.id := by
      rw [Bool.eq_iff_iff]
      simp [h m.id]
    simp only [Sitemap.firstOccurrences, hc]
    split
    · exact ih s1 s2 h
    · congr 1
      apply ih
      intro x
      simp [h x]

theorem uniqueMovies_aux (suf : List Movie) :
    ∀ pre : List Movie,
      Sitemap.filterWithIndexFrom
          (fun movie index =>
            Sitemap.findIndexFrom (fun m => m.id == movie.id) 0 (pre ++ suf) == some index)
          pre.length suf
        = Sitemap.firstOccurrences (pre.map (fun m => m.id)) suf := by
  induction suf with
  | nil => intro pre; rfl
  | cons m ms ih =>
    intro pre
    have hrec := ih (pre ++ [m])
    simp only [List.append_assoc, List.singleton_append, List.length_append, List.length_singleton,
      List.map_append, List.map_cons, List.map_nil] at hrec
    simp only [Sitemap.filterWithIndexFrom, Sitemap.firstOccurrences]
    by_cases hseen : pre.any (fun x => x.id == m.id) = true
    · have hcontains : (pre.map (fun m => m.id)).contains m.id = true := by
        rw [List.any_eq_true] at hseen
        obtain ⟨x, hx, hxe⟩ := hseen
        simp only [List.contains_iff_exists_mem_beq, List.mem_map]
        have hid : x.id = m.id := by simpa using hxe
        exact ⟨x.id, ⟨x, hx, rfl⟩, by simp [hid]⟩
      obtain ⟨j, hj, hlt⟩ := findIndexFrom_lt (fun x => x.id == m.id) pre 0 hseen
      have hfind : Sitemap.findIndexFrom (fun x => x.id == m.id) 0 (pre ++ m :: ms) = some j := by
        rw [findIndexFrom_append, hseen]
        simpa using hj
      have hne : (some j == some pre.length) = false := by
        simp; omega
      simp only [hfind, hne, Bool.false_eq_true, if_false, hcontains, if_true]
      rw [hrec]
      apply firstOccurrences_congr
      intro x
      simp only [List.mem_append, List.mem_singleton]
      constructor
      · rintro (h | h)
        · exact h
        · subst h
          simpa using hcontains
      · intro h
        exact Or.inl h
    · have hseen2 : pre.any (fun x => x.id == m.id) = false := by simpa using hseen
      have hcontains : (pre.map (fun m => m.id)).contains m.id = false := by
        rw [List.any_eq_false] at hseen2
        rw [Bool.eq_false_iff]
        intro hc
        simp only [List.contains_iff_exists_mem_beq, List.mem_map] at hc
        obtain ⟨y, ⟨x, hx, rfl⟩, hy⟩ := hc
        have hid : m.id = x.id := by simpa using hy
        exact hseen2 x hx (by simp [hid])
      have hfind : Sitemap.findIndexFrom (fun x => x.id == m.id) 0 (pre ++ m :: ms)
          = some pre.length := by
        rw [findIndexFrom_append, hseen2]
        simp [Sitemap.findIndexFrom]
      simp only [hfind, beq_self_eq_true, if_true, hcontains, Bool.false_eq_true, if_false]
      rw [hrec]

theorem uniqueMovies_eq_firstOccurrences (allMovies : List Movie) :
    Sitemap.uniqueMovies allMovies = Sitemap.firstOccurrences [] allMovies := by
  have := uniqueMovies_aux allMovies []
  simpa [Sitemap.uniqueMovies] using this

theorem firstOccurrences_ids (l : List Movie) :
    ∀ seen : List Int,
      ((Sitemap.firstOccurrences seen l).map (fun m => m.id)).Nodup ∧
        ∀ x, x ∈ (Sitemap.firstOccurrences seen l).map (fun m => m.id)
          ↔ x ∈ l.map (fun m => m.id) ∧ x ∉ seen := by
  induction l with
  | nil => intro seen; simp [Sitemap.firstOccurrences]
  | cons m ms ih =>
    intro seen
    simp only [Sitemap.firstOccurrences]
    by_cases hc : seen.contains m.id = true
    · have hmem : m.id ∈ seen := by simpa using hc
      simp only [hc, if_true]
      obtain ⟨h1, h2⟩ := ih seen
      refine ⟨h1, ?_⟩
      intro x
      rw [h2 x]
      simp only [List.map_cons, List.mem_cons]
      constructor
      · rintro ⟨a, b⟩
        exact ⟨Or.inr a, b⟩
      · rintro ⟨a | a, b⟩
        · subst a
          exact absurd hmem b
        · exact ⟨a, b⟩
    · have hmem : m.id ∉ seen := by simpa using hc
      simp only [hc, Bool.false_eq_true, if_false]
      obtain ⟨h1, h2⟩ := ih (seen ++ [m.id])
      constructor
      · rw [List.map_cons, List.nodup_cons]
        refine ⟨?_, h1⟩
        intro hin
        have := (h2 m.id).mp hin
        simp at this
      · intro x
        simp only [List.map_cons, List.mem_cons]
        rw [h2 x]
        simp only [List.mem_append, List.mem_singleton, not_or]
        constructor
        · rintro (a | ⟨a, b, c⟩)
          · subst a
            exact ⟨Or.inl rfl, hmem⟩
          · exact ⟨Or.inr a, b⟩
        · rintro ⟨a | a, b⟩
          · exact Or.inl a
          · by_cases hx : x = m.id
            · exact Or.inl hx
            · exact Or.inr ⟨a, b, hx⟩

/-- C26: when both listings are returned, `getMoviePages` yields the pages `/movie/<id>` of the movies kept by the duplicate filter, and that filter keeps exactly one movie per distinct id of the popular results followed by the top-rated results, in the order of first occurrence: no id twice, and no id of the input missing. -/
theorem C26_sitemap_unique_pages (popular topRated : TMDBResponse) (today : String) :
    (Sitemap.getMoviePages (.resolved popular) (.resolved topRated) today).map (fun page => page.url)
        = (Sitemap.firstOccurrences [] (popular.results ++ topRated.results)).map
            (fun movie => "/movie/" ++ toString movie.id) ∧
      Sitemap.uniqueMovies (popular.results ++ topRated.results)
        = Sitemap.firstOccurrences [] (popular.results ++ topRated.results) ∧
      distinctIds (Sitemap.uniqueMovies (popular.results ++ topRated.results)) ∧
      (∀ id : Int, id ∈ (Sitemap.uniqueMovies (popular.results ++ topRated.results)).map
          (fun m => m.id)
        ↔ id ∈ (popular.results ++ topRated.results).map (fun m => m.id)) ∧
      (Sitemap.getMoviePages (.resolved popular) (.resolved topRated) today).length
        = (Sitemap.uniqueMovies (popular.results ++ topRated.results)).length := by
  have he := uniqueMovies_eq_firstOccurrences (popular.results ++ topRated.results)
  obtain ⟨h1, h2⟩ := firstOccurrences_ids (popular.results ++ topRated.results) []
  refine ⟨?_, he, ?_, ?_, ?_⟩
  · simp [Sitemap.getMoviePages, he, List.map_map, Function.comp_def]
  · rw [he]
    exact h1
  · intro id
    rw [he, h2 id]
    simp
  · simp [Sitemap.getMoviePages]

/-- C27, on the code: for the release date `2023-01-01` the card shows `2022` in a time zone five hours west of UTC, although it shows `2023` at UTC and the component test expects `2023`; for a `null` or empty release date it shows `TBA`. -/
theorem C27_release_year_depends_on_time_zone :
    MovieCard.releaseYearText (some "2023-01-01") (-300) = some "2022" ∧
      MovieCard.releaseYearText (some "2023-01-01") 0 = some "2023" ∧
      MovieCard.releaseYearText none (-300) = some "TBA" ∧
      MovieCard.releaseYearText (some "") (-300) = some "TBA" := by
  decide

/-! ## URLs -/

theorem countChar_append (a b : String) (c : Char) :
    countChar (a ++ b) c = countChar a c + countChar b c := by
  simp [countChar, String.data_append, List.count_append]

theorem digitChar_ne_question : ∀ k, k < 10 → Nat.digitChar k ≠ '?' := by
  decide

theorem toDigitsCore_no_question (fuel : Nat) :
    ∀ (n : Nat) (ds : List Char), (∀ c ∈ ds, c ≠ '?') →
      ∀ c ∈ Nat.toDigitsCore 10 fuel n ds, c ≠ '?' := by
  induction fuel with
  | zero => intro n ds h; simpa [Nat.toDigitsCore] using h
  | succ fuel ih =>
    intro n ds h
    have hds : ∀ c ∈ Nat.digitChar (n % 10) :: ds, c ≠ '?' := by
      intro c hc
      rcases List.mem_cons.mp hc with h1 | h1
      · rw [h1]; exact digitChar_ne_question _ (Nat.mod_lt _ (by decide))
      · exact h c h1
    simp only [Nat.toDigitsCore]
    split
    · exact hds
    · exact ih _ _ hds

theorem countChar_toString_nat (n : Nat) : countChar (toString n) '?' = 0 := by
  have h : ∀ c ∈ Nat.toDigits 10 n, c ≠ '?' :=
    toDigitsCore_no_question _ _ _ (by simp)
  have hd : (toString n).data = Nat.toDigits 10 n := rfl
  rw [countChar, hd, List.count_eq_zero]
  intro hmem
  exact h _ hmem rfl

theorem includes_question_iff (s : String) : includes s "?" = true ↔ '?' ∈ s.data := by
  have hq : ("?" : String).data = ['?'] := rfl
  simp only [includes, hq, List.any_eq_true, List.mem_tails, List.isPrefixOf_iff_prefix]
  constructor
  · rintro ⟨t, hsuf, hpre⟩
    obtain ⟨r, rfl⟩ := hpre
    exact hsuf.subset (by simp)
  · intro h
    obtain ⟨l1, l2, h12⟩ := List.append_of_mem h
    exact ⟨'?' :: l2, ⟨l1, h12.symm⟩, ⟨l2, rfl⟩⟩

theorem includes_question_eq (s : String) :
    includes s "?" = decide (0 < countChar s '?') := by
  rw [Bool.eq_iff_iff, includes_question_iff]
  simp [countChar, List.count_pos_iff]

theorem requestUrl_with_question (api : ApiService) (endpoint : String)
    (h : 0 < countChar endpoint '?') :
    requestUrl api endpoint = api.baseURL ++ endpoint ++ "&api_key=" ++ api.apiKey := by
  have e : ("&" ++ "api_key=" : String) = "&api_key=" := by decide
  simp only [requestUrl, includes_question_eq, h, decide_True, if_true, String.append_assoc]
  rw [← String.append_assoc "&" "api_key=", e]

theorem requestUrl_without_question (api : ApiService) (endpoint : String)
    (h : includes endpoint "?" = false) :
    requestUrl api endpoint = api.baseURL ++ endpoint ++ "?api_key=" ++ api.apiKey := by
  have e : ("?" ++ "api_key=" : String) = "?api_key=" := by decide
  simp only [requestUrl, h, Bool.false_eq_true, if_false, String.append_assoc]
  rw [← String.append_assoc "?" "api_key=", e]

theorem addFilter_eq (endpoint name : String) (value : Option String) :
    addFilter endpoint name value = endpoint ++ filterText name value := by
  cases value <;> simp [addFilter, filterText, String.append_assoc]

theorem moviesEndpoint_eq (category : String) (page : Nat) (filters : Filters) :
    moviesEndpoint category page filters
      = "/movie/" ++ category ++ "?page=" ++ toString page ++
          filterText "&with_genres=" filters.genre ++ filterText "&year=" filters.year ++
          filterText "&vote_average.gte=" filters.rating ++
          filterText "&sort_by=" filters.sortBy := by
  simp only [moviesEndpoint, addFilter_eq]

theorem countChar_filterText (name : String) (value : Option String)
    (hn : countChar name '?' = 0) (hv : optNoQuestion value) :
    countChar (filterText name value) '?' = 0 := by
  cases value with
  | none => rfl
  | some v =>
    simp only [optNoQuestion] at hv
    simp only [filterText, countChar_append, hn, hv]

theorem countChar_escapeQuestion (q : List Char) :
    countChar (String.mk (escapeQuestion q)) '?' = 0 := by
  simp only [countChar]
  induction q with
  | nil => rfl
  | cons c cs ih =>
    by_cases hc : c = '?'
    · subst hc
      simp only [escapeQuestion, beq_self_eq_true, if_true, List.count_append, ih]
      decide
    · have hb : (c == '?') = false := by simpa using hc
      simp only [escapeQuestion, hb, Bool.false_eq_true, if_false, List.count_append, ih]
      simp [List.count_cons, hc]

/-- C22 fails as stated: `getMovies` interpolates its category unchecked, so for a category that contains a question mark the URL has two. -/
theorem C22_counterexample :
    requestUrl rt0.api (moviesEndpoint "top?rated" 1 Filters.none)
        = "https://api.themoviedb.org/3/movie/top?rated?page=1&api_key=KEY" ∧
      countChar (requestUrl rt0.api (moviesEndpoint "top?rated" 1 Filters.none)) '?' = 2 ∧
      countChar (requestUrl rt0.api (moviesEndpoint "top?rated" 1 Filters.none)) '?' ≠ 1 := by
  decide

/-- C22, amended: for every category, page and filters `getMovies` requests the base URL, `/movie/<category>?page=<page>`, then for each filter field that is present and truthy its `&name=value` in the order genre, year, rating, sort key, then `&api_key=<key>`; with empty filters only page and key; an endpoint without a question mark gets `?api_key=<key>`, and every URL ends in `api_key=<key>` after `?` or `&`; and the URL of an endpoint method has exactly one question mark when the base URL, the key and the texts that method interpolates (category and filter values, encoded query, time window) contain none. -/
theorem C22_request_url (api : ApiService) (category : String) (page : Nat) (filters : Filters)
    (movieId : Nat) (timeWindow query : String) (encodeURIComponent : String → String) :
    requestUrl api (moviesEndpoint category page filters)
        = api.baseURL ++ ("/movie/" ++ category ++ "?page=" ++ toString page ++
            filterText "&with_genres=" filters.genre ++ filterText "&year=" filters.year ++
            filterText "&vote_average.gte=" filters.rating ++
            filterText "&sort_by=" filters.sortBy) ++ "&api_key=" ++ api.apiKey ∧
      requestUrl api (moviesEndpoint category page Filters.none)
        = api.baseURL ++ ("/movie/" ++ category ++ "?page=" ++ toString page) ++
            "&api_key=" ++ api.apiKey ∧
      (∀ endpoint : String, includes endpoint "?" = false →
        requestUrl api endpoint = api.baseURL ++ endpoint ++ "?api_key=" ++ api.apiKey) ∧
      (∀ endpoint : String,
        requestUrl api endpoint = api.baseURL ++ endpoint ++ "?api_key=" ++ api.apiKey ∨
          requestUrl api endpoint = api.baseURL ++ endpoint ++ "&api_key=" ++ api.apiKey) ∧
      (countChar api.baseURL '?' = 0 → countChar api.apiKey '?' = 0 →
        (countChar category '?' = 0 → optNoQuestion filters.genre →
          optNoQuestion filters.year → optNoQuestion filters.rating →
          optNoQuestion filters.sortBy →
          countChar (requestUrl api (moviesEndpoint category page filters)) '?' = 1) ∧
        ((∀ q, countChar (encodeURIComponent q) '?' = 0) →
          countChar (requestUrl api (searchMoviesEndpoint encodeURIComponent query page)) '?'
            = 1) ∧
        countChar (requestUrl api (movieDetailsEndpoint movieId)) '?' = 1 ∧
        countChar (requestUrl api genresEndpoint) '?' = 1 ∧
        (countChar timeWindow '?' = 0 →
          countChar (requestUrl api (trendingEndpoint timeWindow)) '?' = 1)) := by
  have c1 : countChar "/movie/" '?' = 0 := by decide
  have c2 : countChar "?page=" '?' = 1 := by decide
  have c3 : countChar "&api_key=" '?' = 0 := by decide
  have c4 : countChar "?api_key=" '?' = 1 := by decide
  have c5 : countChar "/search/movie?query=" '?' = 1 := by decide
  have c6 : countChar "&page=" '?' = 0 := by decide
  have c7 : countChar "?append_to_response=videos,credits,reviews,similar" '?' = 1 := by decide
  have c8 : countChar genresEndpoint '?' = 0 := by decide
  have c9 : countChar "/trending/movie/" '?' = 0 := by decide
  have hm : ∀ fs : Filters, 0 < countChar (moviesEndpoint category page fs) '?' := by
    intro fs
    rw [moviesEndpoint_eq]
    simp only [countChar_append, c2]
    omega
  have hnoq : ∀ e : String, countChar e '?' = 0 → includes e "?" = false := by
    intro e he
    rw [includes_question_eq, he]
    rfl
  refine ⟨?_, ?_, fun e he => requestUrl_without_question api e he, ?_, ?_⟩
  · rw [requestUrl_with_question api _ (hm filters), moviesEndpoint_eq]
  · rw [requestUrl_with_question api _ (hm Filters.none), moviesEndpoint_eq]
    simp [Filters.none, filterText]
  · intro e
    by_cases he : 0 < countChar e '?'
    · exact Or.inr (requestUrl_with_question api e he)
    · exact Or.inl (requestUrl_without_question api e (hnoq e (by omega)))
  · intro hbase hkey
    refine ⟨?_, ?_, ?_, ?_, ?_⟩
    · intro hcat hg hy hr hs
      have f1 := countChar_filterText "&with_genres=" filters.genre (by decide) hg
      have f2 := countChar_filterText "&year=" filters.year (by decide) hy
      have f3 := countChar_filterText "&vote_average.gte=" filters.rating (by decide) hr
      have f4 := countChar_filterText "&sort_by=" filters.sortBy (by decide) hs
      have hcount : countChar (moviesEndpoint category page filters) '?' = 1 := by
        rw [moviesEndpoint_eq]
        simp only [countChar_append, c1, c2, hcat, countChar_toString_nat, f1, f2, f3, f4]
      rw [requestUrl_with_question api _ (hm filters)]
      simp only [countChar_append, hbase, hkey, c3, hcount]
    · intro henc
      have hsearch : countChar (searchMoviesEndpoint encodeURIComponent query page) '?' = 1 := by
        simp only [searchMoviesEndpoint, countChar_append, c5, c6, henc, countChar_toString_nat]
      rw [requestUrl_with_question api _ (by omega)]
      simp only [countChar_append, hbase, hkey, c3, hsearch]
    · have hdetails : countChar (movieDetailsEndpoint movieId) '?' = 1 := by
        simp only [movieDetailsEndpoint, countChar_append, c1, c7, countChar_toString_nat]
      rw [requestUrl_with_question api _ (by omega)]
      simp only [countChar_append, hbase, hkey, c3, hdetails]
    · rw [requestUrl_without_question api _ (hnoq _ c8)]
      simp only [countChar_append, hbase, hkey, c4, c8]
    · intro htw
      have htrend : countChar (trendingEndpoint timeWindow) '?' = 0 := by
        simp only [trendingEndpoint, countChar_append, c9, htw]
      rw [requestUrl_without_question api _ (hnoq _ htrend)]
      simp only [countChar_append, hbase, hkey, c4, htrend]

/-- C22, amended, at a concrete input: the popular listing, page 1, genre 28 sorted by popularity, on the client of line 106. -/
theorem C22_request_url_witness :
    requestUrl rt0.api
        (moviesEndpoint "popular" 1 ⟨some "28", none, none, some "popularity.desc"⟩)
        = "https://api.themoviedb.org/3/movie/popular?page=1&with_genres=28&sort_by=popularity.desc&api_key=KEY" ∧
      (countChar rt0.api.baseURL '?' = 0 ∧ countChar rt0.api.apiKey '?' = 0 ∧
        countChar "popular" '?' = 0) ∧
      countChar (requestUrl rt0.api
        (moviesEndpoint "popular" 1 ⟨some "28", none, none, some "popularity.desc"⟩)) '?' = 1 :=
  ⟨by decide, by decide,
    ((C22_request_url rt0.api "popular" 1 ⟨some "28", none, none, some "popularity.desc"⟩ 550
      "day" "dune" (fun q => String.mk (escapeQuestion q.data))).2.2.2.2
        (by decide) (by decide)).1 (by decide)
      (show countChar "28" '?' = 0 by decide) trivial trivial
      (show countChar "popularity.desc" '?' = 0 by decide)⟩

/-- C29, on the code: for page 1 and key `KEY`, the URLs of `TMDBService` have the page (and the query text) inside the path and `api_key` as their only query parameter, while the URLs of `ApiService` have the path `/movie/<category>` or `/search/movie` and the parameters `page` (and `query`) and `api_key`. -/
theorem C29_clients_build_different_urls :
    urlPath (TMDBService.url "KEY" (TMDBService.popularEndpoint 1))
        = "https://api.themoviedb.org/3/movie/popular&page=1" ∧
      urlQuery (TMDBService.url "KEY" (TMDBService.popularEndpoint 1)) = [("api_key", "KEY")] ∧
      urlPath (requestUrl rt0.api (moviesEndpoint "popular" 1 Filters.none))
        = "https://api.themoviedb.org/3/movie/popular" ∧
      urlQuery (requestUrl rt0.api (moviesEndpoint "popular" 1 Filters.none))
        = [("page", "1"), ("api_key", "KEY")] ∧
      urlQuery (TMDBService.url "KEY" (TMDBService.nowPlayingEndpoint 1)) = [("api_key", "KEY")] ∧
      urlQuery (TMDBService.url "KEY" (TMDBService.topRatedEndpoint 1)) = [("api_key", "KEY")] ∧
      urlPath (TMDBService.url "KEY"
          (TMDBService.searchMoviesEndpoint (fun q => String.mk (escapeQuestion q.data)) "dune" 1))
        = "https://api.themoviedb.org/3/search/movie&query=dune&page=1" ∧
      urlQuery (requestUrl rt0.api
          (searchMoviesEndpoint (fun q => String.mk (escapeQuestion q.data)) "dune" 1))
        = [("query", "dune"), ("page", "1"), ("api_key", "KEY")] := by
  decide

/-- C24 fails as stated: two overlapping calls for the genre list on a fresh client fetch once each. -/
theorem C24_counterexample :
    (requestOverlapping rt0 "/genre/movie/list" Options.default (always (ok200 "first"))
        (always (ok200 "second"))).map (fun p => (p.1.fetches, p.2.fetches))
      = some (1, 1) := by
  decide

/-- C24, amended: when the signature is not in the cache as the two overlapping calls are issued, each of them settles after at least one fetch of its own: requests in flight are not deduplicated. -/
theorem C24_no_in_flight_deduplication (rt : Runtime) (endpoint : String) (options : Options)
    (upstream1 upstream2 : Nat → FetchOutcome)
    (hmiss : rt.api.cache.get (cacheKeyOf rt.api endpoint options) = none) :
    ∃ s1 s2, requestOverlapping rt endpoint options upstream1 upstream2 = some (s1, s2) ∧
      1 ≤ s1.fetches ∧ 1 ≤ s2.fetches := by
  obtain ⟨s1, hs1, h1, _⟩ := request_settles rt endpoint options upstream1
  obtain ⟨s2, hs2, h2, _⟩ := request_settles rt endpoint options upstream2
  refine ⟨s1,
    { s2 with
      runtime :=
        match s2.result with
        | .resolved data =>
          if s2.fetches = 0 then s1.runtime
          else s1.runtime.store (cacheKeyOf rt.api endpoint options) data
        | .rejected _ => s1.runtime },
    ?_, h1 hmiss, h2 hmiss⟩
  simp only [requestOverlapping, hs1, hs2]

/-- C24, amended, at a concrete input: two overlapping calls for the genre list on a fresh client. -/
theorem C24_no_in_flight_deduplication_witness :
    rt0.api.cache.get (cacheKeyOf rt0.api "/genre/movie/list" Options.default) = none ∧
      ∃ s1 s2, requestOverlapping rt0 "/genre/movie/list" Options.default
          (always (ok200 "first")) (always (ok200 "second")) = some (s1, s2) ∧
        1 ≤ s1.fetches ∧ 1 ≤ s2.fetches :=
  ⟨by decide,
    C24_no_in_flight_deduplication rt0 "/genre/movie/list" Options.default
      (always (ok200 "first")) (always (ok200 "second")) (by decide)⟩

end MovieApp
